import Mathlib

/-!
# Verification of the movie-idea generator and calculator

Shallow embedding of `src/services/generator.js` and `src/services/calculator.js`
of the `ha-scripts-gen` repository, together with proofs about the claims of the
specification.

Modelling conventions:
* JS numbers are modelled as `ℚ` (all arithmetic in the program is exact decimal
  arithmetic on small values).
* A compatibility matrix `compatibilityData[a]?.[b] ?? 0` is a function
  `Tag → Tag → Option ℚ`; a missing row or entry is `none`.
* `Math.random()`-driven choices are modelled by threading a supply of arbitrary
  natural numbers: each call to `getRandomElement` on a non-empty array consumes
  one number `n` from the supply and picks index `n % length`.  Quantifying over
  all supplies covers every possible sequence of random draws.
* String-encoded numeric table entries (`parseFloat` + `isNaN` guards) are
  modelled as `Option ℚ`: `none` stands for a missing / empty / unparseable entry.
* JS `Array.prototype.sort` (stable) is modelled by `List.insertionSort`, which
  is also a stable sort, with the same comparator.
-/

namespace MovieGen

abbrev Tag := String

abbrev Seg := String

/-- A compatibility dataset: directional score lookup, `none` when the row or
the entry is absent. -/
abbrev CompatData := Tag → Tag → Option ℚ

/-- `getCompatibilityScore` from generator.js: `compatibilityData[tagA]?.[tagB] ?? 0.0`. -/
def getCompatibilityScore (tagA tagB : Tag) (compatibilityData : CompatData) : ℚ :=
  (compatibilityData tagA tagB).getD 0

/-- `isCompatibleWithAll` from generator.js: the candidate fails as soon as some
existing tag scores below `requiredScore` in *both* directions. -/
def isCompatibleWithAll (candidateTag : Tag) (existingTags : List Tag)
    (compatibilityData : CompatData) (requiredScore : ℚ) : Bool :=
  existingTags.all fun existingTag =>
    decide (requiredScore ≤ getCompatibilityScore candidateTag existingTag compatibilityData) ||
    decide (requiredScore ≤ getCompatibilityScore existingTag candidateTag compatibilityData)

/-- `findCompatibleTags` from generator.js. -/
def findCompatibleTags (candidateTags existingTags : List Tag)
    (compatibilityData : CompatData) (requiredScore : ℚ) : List Tag :=
  if candidateTags.isEmpty then []
  else candidateTags.filter fun tag =>
    isCompatibleWithAll tag existingTags compatibilityData requiredScore

/-- JS `new Set(list)` converted back to an array: deduplication keeping the
first occurrence of each element. -/
def uniqueList (l : List Tag) : List Tag :=
  l.foldl (fun acc t => if acc.contains t then acc else acc ++ [t]) []

/-- `getRandomElement` from generator.js.  A pick from a non-empty array consumes
one number of the random supply and picks index `n % length` (the set of possible
results over all supplies is exactly the set of results of
`Math.floor(Math.random() * length)`).  An empty array yields `undefined`
(here `none`) without consuming randomness. -/
def getRandomElement (arr : List α) (supply : List ℕ) : Option α × List ℕ :=
  match arr with
  | [] => (none, supply)
  | _ :: _ =>
    match supply with
    | [] => (arr[(0 : ℕ)]?, [])
    | n :: rest => (arr[n % arr.length]?, rest)

/-- `Math.round(x * 10) / 10`: round to one decimal place (JS rounds half up). -/
def round1 (q : ℚ) : ℚ :=
  ((⌊q * 10 + 1 / 2⌋ : ℤ) : ℚ) / 10

/-- The relaxed threshold computed once per generation run:
`Math.max(0.0, params.min_score - 1.0)`. -/
def fallbackScoreOf (minScore : ℚ) : ℚ :=
  max 0 (minScore - 1)

/-- Generation parameters (the six required fields of `params`). -/
structure Params where
  min_score : ℚ
  num_genres_target : ℤ
  num_themes_target : ℤ
  num_finales_target : ℤ
  num_support_target : ℤ
  add_antagonist : Bool
deriving DecidableEq

/-- The idea record built by `generateMovieIdea`. -/
structure Idea where
  Genres : List Tag
  GenreWeights : List ℚ
  Setting : Option Tag
  Protagonist : Option Tag
  Antagonist : Option Tag
  SupportingChars : List Tag
  Finales : List Tag
  ThemesEvents : List Tag
  TotalScore : ℚ
  AllTags : List Tag
  Warnings : List String
deriving DecidableEq

/-- The active-tags pool.  A category key that is absent in the JS object is
modelled as the empty list (the code treats both identically). -/
structure TagPool where
  GENRES : List Tag
  SETTING : List Tag
  PROTAGONIST : List Tag
  ANTAGONIST : List Tag
  SUPPORTINGCHARACTER : List Tag
  FINALE : List Tag
  THEME : List Tag
  EVENT : List Tag
  THEME_and_EVENTS : List Tag
deriving DecidableEq

/-- The mutable state of one generation run: the working pool, the idea under
construction, the running `selectedTags` list and the remaining random supply. -/
structure GenState where
  pool : TagPool
  idea : Idea
  selected : List Tag
  supply : List ℕ
deriving DecidableEq

def emptyIdea : Idea :=
  { Genres := [], GenreWeights := [], Setting := none, Protagonist := none,
    Antagonist := none, SupportingChars := [], Finales := [], ThemesEvents := [],
    TotalScore := 0, AllTags := [], Warnings := [] }

def addWarning (st : GenState) (msg : String) : GenState :=
  { st with idea := { st.idea with Warnings := st.idea.Warnings ++ [msg] } }

/-- Warning emitted when a subsequent Theme/Event slot has no tags remaining. -/
def themeNoTagsMsg (i : ℕ) (target : ℤ) : String :=
  "Could not add Theme/Event #" ++ toString (i + 1) ++ " (target: " ++ toString target ++
    "): No tags remaining."

/-- Warning emitted when a subsequent Theme/Event slot has no compatible tags. -/
def themeIncompatMsg (i : ℕ) (target : ℤ) (minScore : ℚ) : String :=
  "Could not add Theme/Event #" ++ toString (i + 1) ++ " (target: " ++ toString target ++
    "): No compatible tags found at min_score " ++ toString minScore ++ "."

/-- Warning emitted when a subsequent Finale slot has no tags remaining. -/
def finaleNoTagsMsg (i : ℕ) (target : ℤ) : String :=
  "Could not add Finale #" ++ toString (i + 1) ++ " (target: " ++ toString target ++
    "): No tags remaining."

/-- Warning emitted when a subsequent Finale slot has no compatible tags. -/
def finaleIncompatMsg (i : ℕ) (target : ℤ) (minScore : ℚ) : String :=
  "Could not add Finale #" ++ toString (i + 1) ++ " (target: " ++ toString target ++
    "): No compatible tags found at min_score " ++ toString minScore ++ "."

def antagNoTagsMsg : String :=
  "Attempted to add antagonist, but no tags were available."

def antagIncompatMsg : String :=
  "Attempted to add antagonist, but none were compatible at min_score."

/-- Warning emitted when a Supporting Character slot has no tags remaining. -/
def supportNoTagsMsg (i : ℕ) (target : ℤ) : String :=
  "Could not add Supporting Character #" ++ toString (i + 1) ++ " (target: " ++
    toString target ++ "): No tags remaining."

/-- Warning emitted when a Supporting Character slot has no compatible tags. -/
def supportIncompatMsg (i : ℕ) (target : ℤ) : String :=
  "Could not add Supporting Character #" ++ toString (i + 1) ++ " (target: " ++
    toString target ++ "): No compatible tags found at min_score."

/-- The two-tier candidate filter used by every mandatory pick: filter at
`min_score`; when that yields nothing, filter again at the fallback threshold. -/
def twoTierCands (candidates selected : List Tag) (m : CompatData) (p : Params) : List Tag :=
  let strict := findCompatibleTags candidates selected m p.min_score
  if strict.isEmpty then
    findCompatibleTags candidates selected m (fallbackScoreOf p.min_score)
  else strict

/-- Picking the 2nd or 3rd genre (the two identical blocks of Step 1 of
`generateMovieIdea`): strict filter, fallback filter when strict is empty,
fatal when both are empty; the chosen genre is removed from the pool. -/
def pickAdditionalGenre (m : CompatData) (p : Params) (st : GenState) :
    Except GenState GenState :=
  if st.pool.GENRES.isEmpty then .error st
  else
    let cands := twoTierCands st.pool.GENRES st.selected m p
    if cands.isEmpty then .error st
    else
      match getRandomElement cands st.supply with
      | (none, s') => .error { st with supply := s' }
      | (some g, s') =>
        .ok { st with
          pool := { st.pool with GENRES := st.pool.GENRES.filter (fun x => x != g) },
          idea := { st.idea with Genres := st.idea.Genres ++ [g] },
          selected := st.selected ++ [g],
          supply := s' }

/-- Step 1.4 of `generateMovieIdea`: assign genre weights from the fixed lookup
table keyed by the number of selected genres.  The `default` arm of the JS
switch assigns equal weights `1/numGenres` (it is unreachable in practice). -/
def assignGenreWeights (st : GenState) : Except GenState GenState :=
  match st.idea.Genres.length with
  | 1 => .ok { st with idea := { st.idea with GenreWeights := [1] } }
  | 2 =>
    match getRandomElement [[(0.5 : ℚ), 0.5], [0.65, 0.35], [0.8, 0.2]] st.supply with
    | (some w, s') => .ok { st with idea := { st.idea with GenreWeights := w }, supply := s' }
    | (none, s') => .error { st with supply := s' }
  | 3 =>
    match getRandomElement [[(0.4 : ℚ), 0.3, 0.3], [0.6, 0.2, 0.2]] st.supply with
    | (some w, s') => .ok { st with idea := { st.idea with GenreWeights := w }, supply := s' }
    | (none, s') => .error { st with supply := s' }
  | n =>
    .ok { st with idea := { st.idea with GenreWeights := List.replicate n ((1 : ℚ) / n) } }

/-- Step 1 of `generateMovieIdea`: select `num_genres_target` genres.  The first
genre is an uninformed random pick; the 2nd and 3rd use the strict-then-fallback
two-tier filter.  Every failure is fatal. -/
def stepGenres (m : CompatData) (p : Params) (st : GenState) : Except GenState GenState :=
  if st.pool.GENRES.isEmpty then .error st
  else if p.num_genres_target < 1 ∨ 3 < p.num_genres_target then .error st
  else
    match getRandomElement st.pool.GENRES st.supply with
    | (none, s') => .error { st with supply := s' }
    | (some g1, s') =>
      let st1 : GenState :=
        { st with
          pool := { st.pool with GENRES := st.pool.GENRES.filter (fun x => x != g1) },
          idea := { st.idea with Genres := st.idea.Genres ++ [g1] },
          selected := st.selected ++ [g1],
          supply := s' }
      ((if 2 ≤ p.num_genres_target then pickAdditionalGenre m p st1 else .ok st1).bind
        fun st2 =>
          (if p.num_genres_target = 3 then pickAdditionalGenre m p st2 else .ok st2)).bind
        assignGenreWeights

/-- Step 2 of `generateMovieIdea`: select the setting (mandatory, two-tier
filter).  Note that the chosen setting is *not* removed from the pool. -/
def stepSetting (m : CompatData) (p : Params) (st : GenState) : Except GenState GenState :=
  if st.pool.SETTING.isEmpty then .error st
  else
    let cands := twoTierCands st.pool.SETTING st.selected m p
    if cands.isEmpty then .error st
    else
      match getRandomElement cands st.supply with
      | (none, s') => .error { st with supply := s' }
      | (some t, s') =>
        .ok { st with
          idea := { st.idea with Setting := some t },
          selected := st.selected ++ [t],
          supply := s' }

/-- Step 3 of `generateMovieIdea`: select the protagonist (mandatory, two-tier
filter); the chosen protagonist is removed from the pool. -/
def stepProtagonist (m : CompatData) (p : Params) (st : GenState) : Except GenState GenState :=
  if st.pool.PROTAGONIST.isEmpty then .error st
  else
    let cands := twoTierCands st.pool.PROTAGONIST st.selected m p
    if cands.isEmpty then .error st
    else
      match getRandomElement cands st.supply with
      | (none, s') => .error { st with supply := s' }
      | (some t, s') =>
        .ok { st with
          pool := { st.pool with PROTAGONIST := st.pool.PROTAGONIST.filter (fun x => x != t) },
          idea := { st.idea with Protagonist := some t },
          selected := st.selected ++ [t],
          supply := s' }

/-- The loop of Step 4 of `generateMovieIdea` (`for i = 0; i < num_themes_target`):
the first pick is mandatory with fallback, subsequent picks are strict-only and
record a warning instead of aborting.  Chosen tags are removed from the working
`available` list and from the `THEME`, `EVENT` and `THEME_and_EVENTS` pools. -/
def themesLoop (m : CompatData) (p : Params) :
    ℕ → ℕ → List Tag → GenState → Except GenState GenState
  | _, 0, _, st => .ok st
  | i, fuel + 1, available, st =>
    if available.isEmpty then
      if i = 0 then .error st
      else .ok (addWarning st (themeNoTagsMsg i p.num_themes_target))
    else
      let strict := findCompatibleTags available st.selected m p.min_score
      let cands :=
        if strict.isEmpty ∧ i = 0 then
          findCompatibleTags available st.selected m (fallbackScoreOf p.min_score)
        else strict
      if strict.isEmpty ∧ i ≠ 0 then
        .ok (addWarning st (themeIncompatMsg i p.num_themes_target p.min_score))
      else if cands.isEmpty then .error st
      else
        match getRandomElement cands st.supply with
        | (none, s') => .error { st with supply := s' }
        | (some c, s') =>
          themesLoop m p (i + 1) fuel (available.filter (fun x => x != c))
            { st with
              pool := { st.pool with
                THEME := st.pool.THEME.filter (fun x => x != c),
                EVENT := st.pool.EVENT.filter (fun x => x != c),
                THEME_and_EVENTS := st.pool.THEME_and_EVENTS.filter (fun x => x != c) },
              idea := { st.idea with ThemesEvents := st.idea.ThemesEvents ++ [c] },
              selected := st.selected ++ [c],
              supply := s' }

/-- Step 4 of `generateMovieIdea`: select `num_themes_target` themes/events from
the deduplicated `THEME_and_EVENTS` pool, excluding already-selected tags. -/
def stepThemes (m : CompatData) (p : Params) (st : GenState) : Except GenState GenState :=
  if p.num_themes_target < 1 ∨ 3 < p.num_themes_target then .error st
  else
    let available :=
      (uniqueList st.pool.THEME_and_EVENTS).filter (fun t => !(st.selected.contains t))
    if available.isEmpty ∧ 0 < p.num_themes_target then .error st
    else themesLoop m p 0 p.num_themes_target.toNat available st

/-- The loop of Step 5 of `generateMovieIdea`, same two-tier policy as the
themes loop; chosen tags are removed from the `FINALE` pool. -/
def finalesLoop (m : CompatData) (p : Params) :
    ℕ → ℕ → List Tag → GenState → Except GenState GenState
  | _, 0, _, st => .ok st
  | i, fuel + 1, available, st =>
    if available.isEmpty then
      if i = 0 then .error st
      else .ok (addWarning st (finaleNoTagsMsg i p.num_finales_target))
    else
      let strict := findCompatibleTags available st.selected m p.min_score
      let cands :=
        if strict.isEmpty ∧ i = 0 then
          findCompatibleTags available st.selected m (fallbackScoreOf p.min_score)
        else strict
      if strict.isEmpty ∧ i ≠ 0 then
        .ok (addWarning st (finaleIncompatMsg i p.num_finales_target p.min_score))
      else if cands.isEmpty then .error st
      else
        match getRandomElement cands st.supply with
        | (none, s') => .error { st with supply := s' }
        | (some c, s') =>
          finalesLoop m p (i + 1) fuel (available.filter (fun x => x != c))
            { st with
              pool := { st.pool with FINALE := st.pool.FINALE.filter (fun x => x != c) },
              idea := { st.idea with Finales := st.idea.Finales ++ [c] },
              selected := st.selected ++ [c],
              supply := s' }

/-- Step 5 of `generateMovieIdea`: select `num_finales_target` finales. -/
def stepFinales (m : CompatData) (p : Params) (st : GenState) : Except GenState GenState :=
  if p.num_finales_target < 1 ∨ 2 < p.num_finales_target then .error st
  else
    let available := st.pool.FINALE.filter (fun t => !(st.selected.contains t))
    if available.isEmpty ∧ 0 < p.num_finales_target then .error st
    else finalesLoop m p 0 p.num_finales_target.toNat available st

/-- Step 6 of `generateMovieIdea`: optionally select an antagonist (strict-only,
never fatal; failure records a warning). -/
def stepAntagonist (m : CompatData) (p : Params) (st : GenState) : Except GenState GenState :=
  if p.add_antagonist then
    let available := st.pool.ANTAGONIST.filter (fun t => !(st.selected.contains t))
    if available.isEmpty then .ok (addWarning st antagNoTagsMsg)
    else
      let compat := findCompatibleTags available st.selected m p.min_score
      if compat.isEmpty then .ok (addWarning st antagIncompatMsg)
      else
        match getRandomElement compat st.supply with
        | (none, s') => .error { st with supply := s' }
        | (some a, s') =>
          .ok { st with
            pool := { st.pool with ANTAGONIST := st.pool.ANTAGONIST.filter (fun x => x != a) },
            idea := { st.idea with Antagonist := some a },
            selected := st.selected ++ [a],
            supply := s' }
  else .ok st

/-- The loop of Step 7 of `generateMovieIdea`: strict-only supporting-character
picks, warning and stop on an unfillable slot, never fatal. -/
def supportLoop (m : CompatData) (p : Params) (target : ℤ) :
    ℕ → ℕ → List Tag → GenState → Except GenState GenState
  | _, 0, _, st => .ok st
  | i, fuel + 1, available, st =>
    if available.isEmpty then
      .ok (addWarning st (supportNoTagsMsg i target))
    else
      let compat := findCompatibleTags available st.selected m p.min_score
      if compat.isEmpty then
        .ok (addWarning st (supportIncompatMsg i target))
      else
        match getRandomElement compat st.supply with
        | (none, s') => .error { st with supply := s' }
        | (some c, s') =>
          supportLoop m p target (i + 1) fuel (available.filter (fun x => x != c))
            { st with
              pool := { st.pool with
                SUPPORTINGCHARACTER := st.pool.SUPPORTINGCHARACTER.filter (fun x => x != c) },
              idea := { st.idea with SupportingChars := st.idea.SupportingChars ++ [c] },
              selected := st.selected ++ [c],
              supply := s' }

/-- Step 7 of `generateMovieIdea`: a negative `num_support_target` is clamped to
0 (the JS code overwrites the parameter), then the strict-only loop runs. -/
def stepSupport (m : CompatData) (p : Params) (st : GenState) : Except GenState GenState :=
  let target := if p.num_support_target < 0 then 0 else p.num_support_target
  let available := st.pool.SUPPORTINGCHARACTER.filter (fun t => !(st.selected.contains t))
  supportLoop m p target 0 target.toNat available st

/-- The `genreWeightMap` of Step 8: genre at index `i` maps to weight `i` when
the weights list is long enough, to `1.0` otherwise.  Later `Map.set` calls win,
hence lookup searches the reversed entry list. -/
def buildGenreWeightPairs : List Tag → List ℚ → List (Tag × ℚ)
  | [], _ => []
  | g :: gs, [] => (g, 1) :: buildGenreWeightPairs gs []
  | g :: gs, w :: ws => (g, w) :: buildGenreWeightPairs gs ws

/-- `genreWeightMap.get(tag) ?? 1.0`. -/
def weightLookup (entries : List (Tag × ℚ)) (t : Tag) : ℚ :=
  match entries.reverse.find? (fun e => e.1 == t) with
  | some e => e.2
  | none => 1

/-- The inner `j` loop of Step 8 for a fixed `tagA`:
`score(A,B)*weight(A) + score(B,A)*weight(B)` accumulated over the later tags. -/
def pairScoreRow (m : CompatData) (w : Tag → ℚ) (a : Tag) (rest : List Tag) : ℚ :=
  rest.foldl
    (fun acc b =>
      acc + (getCompatibilityScore a b m * w a + getCompatibilityScore b a m * w b)) 0

/-- The double loop of Step 8: every unordered pair of selected tags contributes
its two weighted directional scores once. -/
def pairScoreTotal (m : CompatData) (w : Tag → ℚ) : List Tag → ℚ
  | [] => 0
  | a :: rest => pairScoreRow m w a rest + pairScoreTotal m w rest

/-- Step 8 of `generateMovieIdea`: compute the weighted total compatibility
score, round it to one decimal place, and store the flattened tag list. -/
def stepScore (m : CompatData) (st : GenState) : Except GenState GenState :=
  let wmap := buildGenreWeightPairs st.idea.Genres st.idea.GenreWeights
  .ok { st with idea := { st.idea with
    TotalScore := round1 (pairScoreTotal m (weightLookup wmap) st.selected),
    AllTags := st.selected } }

/-- Steps 1–7 of `generateMovieIdea` chained; a fatal error short-circuits. -/
def prePipeline (m : CompatData) (p : Params) (st0 : GenState) : Except GenState GenState :=
  ((((((stepGenres m p st0).bind (stepSetting m p)).bind (stepProtagonist m p)).bind
    (stepThemes m p)).bind (stepFinales m p)).bind (stepAntagonist m p)).bind
    (stepSupport m p)

/-- `generateMovieIdea` from generator.js.  Returns the idea (or `none` after a
fatal error), together with the working pool as the run left it (the JS function
mutates the pool object it receives) and the remaining random supply. -/
def generateMovieIdea (pool : TagPool) (m : CompatData) (p : Params) (supply : List ℕ) :
    Option Idea × TagPool × List ℕ :=
  let st0 : GenState := { pool := pool, idea := emptyIdea, selected := [], supply := supply }
  match (prePipeline m p st0).bind (stepScore m) with
  | .ok st => (some st.idea, st.pool, st.supply)
  | .error st => (none, st.pool, st.supply)

def MAX_GENERATION_ATTEMPTS : ℕ := 3

def MIN_REQUIRED_SCORE : ℚ := 44.0

/-- `JSON.parse(JSON.stringify(pool))`: a deep copy of a plain object of string
lists always succeeds and produces an equal, independent value. -/
def deepCopyPool (pool : TagPool) : Option TagPool := some pool

/-- The retry loop of `generateMovieIdeaWithRetry`, parameterised by the
deep-copy operation (which can fail in JS).  `fuel` counts the remaining
attempts, `last` is `lastGeneratedIdea`. -/
def retryLoop (copyFn : TagPool → Option TagPool) (m : CompatData) (p : Params)
    (pool : TagPool) : ℕ → Option Idea → List ℕ → Option Idea
  | 0, last, _ => last
  | fuel + 1, last, s =>
    match copyFn pool with
    | none => last
    | some poolCopy =>
      let r := generateMovieIdea poolCopy m p s
      match r.1 with
      | some i =>
        if MIN_REQUIRED_SCORE ≤ i.TotalScore then some i
        else retryLoop copyFn m p pool fuel (some i) r.2.2
      | none => retryLoop copyFn m p pool fuel none r.2.2

/-- `generateMovieIdeaWithRetry` from generator.js. -/
def generateMovieIdeaWithRetry (pool : TagPool) (m : CompatData) (p : Params)
    (supply : List ℕ) : Option Idea :=
  retryLoop deepCopyPool m p pool MAX_GENERATION_ATTEMPTS none supply

/-! ## calculator.js -/

/-- Per-segment metadata of the audience group table.  The `artWeight` /
`commercialWeight` strings are modelled by their parsed value (`none` stands for
a missing or unparseable string). -/
structure AudienceGroup where
  artWeight : Option ℚ
  commercialWeight : Option ℚ
deriving DecidableEq

/-- A per-tag audience-weight lookup: `audienceWeightsData[tag]?.weights` is
`none` when the tag has no entry; a segment weight is `none` when the string is
missing, empty or unparseable. -/
abbrev AudienceWeights := Tag → Option (Seg → Option ℚ)

/-- The accumulation loops of `calculateAverageAudienceAppeal`: running
`(total, count)` per audience segment, updated tag by tag. -/
def appealTotals (selectedTags : List Tag) (weightOf : AudienceWeights)
    (audienceGroupsData : List (Seg × AudienceGroup)) : List (Seg × ℚ × ℕ) :=
  selectedTags.foldl
    (fun acc tagId =>
      match weightOf tagId with
      | none => acc
      | some tagWeights =>
        acc.map fun e =>
          match tagWeights e.1 with
          | none => e
          | some score => (e.1, e.2.1 + score, e.2.2 + 1))
    ((audienceGroupsData.map (·.1)).map (fun a => (a, (0 : ℚ), (0 : ℕ))))

/-- `calculateAverageAudienceAppeal` from calculator.js: average the contributed
weights per segment by the number of contributing tags. -/
def calculateAverageAudienceAppeal (selectedTags : List Tag)
    (weightOf : AudienceWeights) (audienceGroupsData : List (Seg × AudienceGroup)) :
    List (Seg × ℚ) :=
  if audienceGroupsData.isEmpty then []
  else if selectedTags.isEmpty then
    (audienceGroupsData.map (·.1)).map (fun a => (a, (0 : ℚ)))
  else
    (appealTotals selectedTags weightOf audienceGroupsData).map fun e =>
      (e.1, if 0 < e.2.2 then e.2.1 / (e.2.2 : ℚ) else 0)

/-- The numeric weights the tag list contributes to one segment, in tag order
(specification-level description used to state claims about the appeal
computation). -/
def segContributions (tags : List Tag) (weightOf : AudienceWeights) (seg : Seg) : List ℚ :=
  tags.filterMap fun t =>
    match weightOf t with
    | none => none
    | some tagWeights => tagWeights seg

/-- Specification-level appeal of one segment: sum of the contributed weights
divided by the number of contributing tags, `0` when no tag contributes. -/
def audienceAppealSpec (tags : List Tag) (weightOf : AudienceWeights) (seg : Seg) : ℚ :=
  let c := segContributions tags weightOf seg
  if c.isEmpty then 0 else c.sum / (c.length : ℚ)

/-- `Math.max(1, Math.min(5, total * 5))` rounded to one decimal. -/
def scaleClampRound (total : ℚ) : ℚ :=
  round1 (max 1 (min 5 (total * 5)))

/-- `calculateArtisticCommercialScores` from calculator.js (the input appeal map
and group table are non-null here, so the null guard is dropped). -/
def calculateArtisticCommercialScores (appeal : List (Seg × ℚ))
    (audienceGroupsData : List (Seg × AudienceGroup)) : ℚ × ℚ :=
  let totals := appeal.foldl
    (fun (t : ℚ × ℚ) e =>
      match (audienceGroupsData.find? (fun g => g.1 == e.1)).map (·.2) with
      | none => t
      | some groupData =>
        if (0 : ℚ) < e.2 then
          ((match groupData.artWeight with
            | some a => t.1 + e.2 * a
            | none => t.1),
           (match groupData.commercialWeight with
            | some c => t.2 + e.2 * c
            | none => t.2))
        else t)
    (0, 0)
  (scaleClampRound totals.1, scaleClampRound totals.2)

/-- One advertiser record.  `displayName` / `id` use `""` for an absent field
(absent and empty string behave identically under JS `||`); `quality` and the
importance values are the `parseFloat` results (`none` = `NaN`). -/
structure Advertiser where
  displayName : String
  id : String
  quality : Option ℚ
  targetAudience : List (Seg × Option ℚ)
deriving DecidableEq

/-- `adData.displayName || adData.id || 'Unknown Advertiser'`. -/
def advertiserName (ad : Advertiser) : String :=
  if ad.displayName != "" then ad.displayName
  else if ad.id != "" then ad.id
  else "Unknown Advertiser"

/-- `averageAudienceAppeal[audienceId] ?? 0`. -/
def appealLookup (appeal : List (Seg × ℚ)) (seg : Seg) : ℚ :=
  match appeal.find? (fun e => e.1 == seg) with
  | some e => e.2
  | none => 0

/-- JS stable descending sort by `.2` (`.sort((a, b) => b.score - a.score)`),
modelled by the stable `insertionSort`. -/
def sortByScoreDesc (l : List (String × ℚ)) : List (String × ℚ) :=
  l.insertionSort (fun a b => b.2 ≤ a.2)

def INTERESTED_AUDIENCE_THRESHOLD : ℚ := 2.5

def INTERESTED_AUDIENCE_FALLBACK_COUNT : ℕ := 2

def ADVERTISER_MATCH_NO_OVERLAP_PENALTY : ℚ := 0.5

def ADVERTISER_MATCH_SCORE_THRESHOLD : ℚ := 13.0

def ADVERTISER_MATCH_FALLBACK_COUNT : ℕ := 3

/-- The interested-audience selection of `calculateAdvertiserMatches`: segments
with appeal at or above the threshold, else the top segments with positive
appeal (fallback, flagged). -/
def computeInterestedAudiences (appeal : List (Seg × ℚ)) : List Seg × Bool :=
  let appealing :=
    (appeal.filter (fun e => decide (INTERESTED_AUDIENCE_THRESHOLD ≤ e.2))).map (·.1)
  if !appealing.isEmpty then (appealing, false)
  else
    let sorted :=
      (appeal.filter (fun e => decide (0 < e.2))).insertionSort (fun a b => b.2 ≤ a.2)
    ((sorted.take INTERESTED_AUDIENCE_FALLBACK_COUNT).map (·.1), true)

/-- The per-advertiser evaluation of `calculateAdvertiserMatches`: quality plus
the importance-weighted appeal of overlapping interested segments, or the
no-overlap penalty. -/
def evalAdvertiser (interested : List Seg) (appeal : List (Seg × ℚ))
    (ad : Advertiser) : String × ℚ :=
  let overlap := ad.targetAudience.foldl
    (fun (acc : ℚ × Bool) ta =>
      if interested.contains ta.1 then
        match ta.2 with
        | some importance =>
          if 0 < importance then
            (acc.1 + importance * appealLookup appeal ta.1, true)
          else acc
        | none => acc
      else acc)
    (0, false)
  let quality := ad.quality.getD 0
  (advertiserName ad,
    if overlap.2 then quality + overlap.1 else quality * ADVERTISER_MATCH_NO_OVERLAP_PENALTY)

/-- The result record of `calculateAdvertiserMatches`. -/
structure AdvertiserMatchResult where
  interestedAudiences : List Seg
  topAdvertisers : List (String × ℚ)
  usedAudienceFallback : Bool
  usedAdvertiserFallback : Bool
deriving DecidableEq

/-- `calculateAdvertiserMatches` from calculator.js. -/
def calculateAdvertiserMatches (appeal : List (Seg × ℚ))
    (advertisersData : List Advertiser) : AdvertiserMatchResult :=
  let ia := computeInterestedAudiences appeal
  if ia.1.isEmpty then
    { interestedAudiences := [], topAdvertisers := [],
      usedAudienceFallback := ia.2, usedAdvertiserFallback := false }
  else
    let evaluated := advertisersData.map (evalAdvertiser ia.1 appeal)
    let ranked := sortByScoreDesc evaluated
    let good := ranked.filter (fun ad => decide (ADVERTISER_MATCH_SCORE_THRESHOLD ≤ ad.2))
    let top := if !good.isEmpty then good else ranked.take ADVERTISER_MATCH_FALLBACK_COUNT
    { interestedAudiences := ia.1,
      topAdvertisers := top.map (fun ad => (ad.1, round1 ad.2)),
      usedAudienceFallback := ia.2,
      usedAdvertiserFallback := good.isEmpty }

/-- `validateSelectedTags`' result. -/
structure ValidationResult where
  isValid : Bool
  errorMessages : List String
deriving DecidableEq

/-- `selectedTagsByCategory[category]?.length ?? 0`. -/
def categoryCount (selectedTagsByCategory : List (String × List Tag)) (category : String) : ℕ :=
  match selectedTagsByCategory.find? (fun e => e.1 == category) with
  | some e => e.2.length
  | none => 0

/-- `validateSelectedTags` from calculator.js. -/
def validateSelectedTags (selectedTagsByCategory : List (String × List Tag)) :
    ValidationResult :=
  let genreCount := categoryCount selectedTagsByCategory "GENRES"
  let e1 : List String :=
    if genreCount < 1 ∨ 3 < genreCount then ["Select between 1 and 3 Genres."] else []
  let e2 :=
    e1 ++ (if categoryCount selectedTagsByCategory "SETTING" ≠ 1 then
      ["Exactly one Setting must be selected."] else [])
  let e3 :=
    e2 ++ (if categoryCount selectedTagsByCategory "PROTAGONIST" ≠ 1 then
      ["Exactly one Protagonist must be selected."] else [])
  let e4 :=
    e3 ++ (if 1 < categoryCount selectedTagsByCategory "ANTAGONIST" then
      ["At most one Antagonist can be selected."] else [])
  let e5 :=
    e4 ++ (if 1 < categoryCount selectedTagsByCategory "FINALE" then
      ["At most one Finale can be selected."] else [])
  let totalSelected := ((selectedTagsByCategory.map (·.2)).flatten).length
  let e6 :=
    e5 ++ (if totalSelected = 0 ∧ e5.isEmpty then
      ["No tags were selected for calculation."] else [])
  { isValid := e6.isEmpty, errorMessages := e6 }

/-- The `results` record of `runCalculations` (fields are `Option`s because the
catch-branch nulls them out). -/
structure CalcResults where
  artisticScore : Option ℚ
  commercialScore : Option ℚ
  interestedAudiences : Option (List Seg)
  topAdvertisers : Option (List (String × ℚ))
  usedAudienceFallback : Bool
  usedAdvertiserFallback : Bool
  error : Option String
deriving DecidableEq

structure CalcOutcome where
  validation : ValidationResult
  results : Option CalcResults
deriving DecidableEq

/-- `runCalculations` from calculator.js.  The two internal `throw new Error`
sites are the only exceptions the `try` block can raise; they are embedded as
the explicit error-result branch of the catch handler. -/
def runCalculations (selectedTagsByCategory : List (String × List Tag))
    (weightOf : AudienceWeights) (audienceGroupsData : List (Seg × AudienceGroup))
    (advertisersData : List Advertiser) : CalcOutcome :=
  let validation := validateSelectedTags selectedTagsByCategory
  if validation.isValid = false then { validation := validation, results := none }
  else
    let allSelectedTags := (selectedTagsByCategory.map (·.2)).flatten
    let appeal := calculateAverageAudienceAppeal allSelectedTags weightOf audienceGroupsData
    if appeal.isEmpty ∧ ¬audienceGroupsData.isEmpty then
      { validation := validation,
        results := some
          { artisticScore := none, commercialScore := none, interestedAudiences := none,
            topAdvertisers := none, usedAudienceFallback := false,
            usedAdvertiserFallback := false,
            error := some "Calculation failed: Audience appeal calculation failed critically." } }
    else if (appeal.all fun e => decide (e.2 = 0)) ∧ ¬allSelectedTags.isEmpty then
      { validation := validation,
        results := some
          { artisticScore := some 1, commercialScore := some 1,
            interestedAudiences := some [], topAdvertisers := some [],
            usedAudienceFallback := false, usedAdvertiserFallback := false,
            error := some "Selected tags have no measurable appeal." } }
    else
      let scores := calculateArtisticCommercialScores appeal audienceGroupsData
      let adMatches := calculateAdvertiserMatches appeal advertisersData
      { validation := validation,
        results := some
          { artisticScore := some scores.1, commercialScore := some scores.2,
            interestedAudiences := some adMatches.interestedAudiences,
            topAdvertisers := some adMatches.topAdvertisers,
            usedAudienceFallback := adMatches.usedAudienceFallback,
            usedAdvertiserFallback := adMatches.usedAdvertiserFallback,
            error := none } }

/-! ## Specification-level descriptions used to state claims -/

/-- Specification-level total score: the sum over all unordered index pairs
`(i < j)` of the selected list of
`score(i→j)·weight(i) + score(j→i)·weight(j)`. -/
def pairScoreSpec (m : CompatData) (w : Tag → ℚ) (tags : List Tag) : ℚ :=
  ∑ i ∈ Finset.range tags.length, ∑ j ∈ Finset.range tags.length,
    if i < j then
      getCompatibilityScore (tags.getD i "") (tags.getD j "") m * w (tags.getD i "") +
        getCompatibilityScore (tags.getD j "") (tags.getD i "") m * w (tags.getD j "")
    else 0

/-! ## Concrete scenarios used for witnesses and counterexamples -/

/-- A linear rank on the scenario tags; the scenario matrices score `5` from a
lower-ranked to a higher-ranked tag and leave the reverse direction absent. -/
def rankTag : Tag → ℕ
  | "G" => 0
  | "S" => 1
  | "P" => 2
  | "T" => 3
  | "F" => 4
  | "C" => 5
  | _ => 9

/-- Base scenario matrix: score 5 along the rank order, nothing else. -/
def chainCompat : CompatData := fun a b =>
  if rankTag a < rankTag b then some 5 else none

/-- Scenario matrix where the only route from the genre to the setting scores 1:
below `min_score = 2` but at the fallback threshold 1. -/
def mFallback : CompatData := fun a b =>
  if a = "G" ∧ b = "S" then some 1 else chainCompat a b

/-- Scenario matrix where the setting is incompatible even at the fallback
threshold. -/
def mNoSetting : CompatData := fun a b =>
  if a = "G" ∧ b = "S" then none else chainCompat a b

/-- Scenario matrix where tag `"D"` is incompatible with everything. -/
def mNoD : CompatData := fun a b =>
  if a = "D" ∨ b = "D" then none else chainCompat a b

/-- Scenario matrix where tag `"U"` scores 1 with everything: enough for the
fallback threshold 1 but below `min_score = 2`. -/
def mWeakU : CompatData := fun a b =>
  if a = "U" ∨ b = "U" then some 1 else chainCompat a b

/-- Scenario matrix where the duplicated tag `"X"` is self-compatible. -/
def mDup : CompatData := fun a b =>
  if a = "X" ∧ b = "X" then some 5 else chainCompat a b

/-- Base scenario pool: one tag per mandatory category. -/
def poolA : TagPool :=
  { GENRES := ["G"], SETTING := ["S"], PROTAGONIST := ["P"], ANTAGONIST := [],
    SUPPORTINGCHARACTER := [], FINALE := ["F"], THEME := [], EVENT := [],
    THEME_and_EVENTS := ["T"] }

/-- Pool with two supporting characters, of which only `"C"` is compatible. -/
def poolB : TagPool := { poolA with SUPPORTINGCHARACTER := ["C", "D"] }

/-- Pool with one incompatible antagonist `"D"`. -/
def poolD : TagPool := { poolA with ANTAGONIST := ["D"] }

/-- Pool with a second theme/event `"U"` that only clears the fallback bar. -/
def poolE : TagPool := { poolA with THEME_and_EVENTS := ["T", "U"] }

/-- Pool where the same tag string `"X"` appears as a genre and as the setting. -/
def poolDup : TagPool := { poolA with GENRES := ["X"], SETTING := ["X"] }

/-- Base scenario parameters: `min_score` 2, one tag per multi slot. -/
def pA : Params :=
  { min_score := 2, num_genres_target := 1, num_themes_target := 1,
    num_finales_target := 1, num_support_target := 0, add_antagonist := false }

def pB : Params := { pA with num_support_target := 2 }

def pD : Params := { pA with add_antagonist := true }

def pE : Params := { pA with num_themes_target := 2 }

/-! Intermediate pools and ideas of the scenario runs (one entry per pipeline
stage that changes them). -/

def poolA1 : TagPool := { poolA with GENRES := [] }
def poolA3 : TagPool := { poolA1 with PROTAGONIST := [] }
def poolA4 : TagPool := { poolA3 with THEME_and_EVENTS := [] }
def poolAEnd : TagPool := { poolA4 with FINALE := [] }

def poolB1 : TagPool := { poolB with GENRES := [] }
def poolB3 : TagPool := { poolB1 with PROTAGONIST := [] }
def poolB4 : TagPool := { poolB3 with THEME_and_EVENTS := [] }
def poolB5 : TagPool := { poolB4 with FINALE := [] }
def poolBEnd : TagPool := { poolB5 with SUPPORTINGCHARACTER := ["D"] }

def poolD1 : TagPool := { poolD with GENRES := [] }
def poolD3 : TagPool := { poolD1 with PROTAGONIST := [] }
def poolD4 : TagPool := { poolD3 with THEME_and_EVENTS := [] }
def poolDEnd : TagPool := { poolD4 with FINALE := [] }

def poolE1 : TagPool := { poolE with GENRES := [] }
def poolE3 : TagPool := { poolE1 with PROTAGONIST := [] }
def poolE4 : TagPool := { poolE3 with THEME_and_EVENTS := ["U"] }
def poolEEnd : TagPool := { poolE4 with FINALE := [] }

def poolDup1 : TagPool := { poolDup with GENRES := [] }
def poolDup3 : TagPool := { poolDup1 with PROTAGONIST := [] }
def poolDup4 : TagPool := { poolDup3 with THEME_and_EVENTS := [] }
def poolDupEnd : TagPool := { poolDup4 with FINALE := [] }

def ideaG1 : Idea := { emptyIdea with Genres := ["G"], GenreWeights := [1] }
def ideaG2 : Idea := { ideaG1 with Setting := some "S" }
def ideaG3 : Idea := { ideaG2 with Protagonist := some "P" }
def ideaG4 : Idea := { ideaG3 with ThemesEvents := ["T"] }
def ideaG5 : Idea := { ideaG4 with Finales := ["F"] }

/-- The idea produced by the fallback scenario (the setting only clears the
fallback threshold). -/
def ideaA1 : Idea :=
  { ideaG5 with TotalScore := 46, AllTags := ["G", "S", "P", "T", "F"] }

def ideaB6 : Idea :=
  { ideaG5 with SupportingChars := ["C"], Warnings := [supportIncompatMsg 1 2] }

/-- The idea produced by the supporting-character underfill scenario. -/
def ideaB : Idea :=
  { ideaB6 with TotalScore := 75, AllTags := ["G", "S", "P", "T", "F", "C"] }

def ideaD6 : Idea := { ideaG5 with Warnings := [antagIncompatMsg] }

/-- The idea produced by the incompatible-antagonist scenario. -/
def ideaD : Idea :=
  { ideaD6 with TotalScore := 50, AllTags := ["G", "S", "P", "T", "F"] }

def ideaE4 : Idea :=
  { ideaG3 with ThemesEvents := ["T"], Warnings := [themeIncompatMsg 1 2 2] }

def ideaE5 : Idea := { ideaE4 with Finales := ["F"] }

/-- The idea produced by the strict-only-subsequent-theme scenario. -/
def ideaE : Idea :=
  { ideaE5 with TotalScore := 50, AllTags := ["G", "S", "P", "T", "F"] }

def ideaX1 : Idea := { emptyIdea with Genres := ["X"], GenreWeights := [1] }
def ideaX2 : Idea := { ideaX1 with Setting := some "X" }
def ideaX3 : Idea := { ideaX2 with Protagonist := some "P" }
def ideaX4 : Idea := { ideaX3 with ThemesEvents := ["T"] }
def ideaX5 : Idea := { ideaX4 with Finales := ["F"] }

/-- The idea produced by the duplicated-tag scenario: the tag `"X"` is selected
both as the genre and as the setting. -/
def ideaDup : Idea :=
  { ideaX5 with TotalScore := 55, AllTags := ["X", "X", "P", "T", "F"] }

/-! ## Predicates used by the claims about genre weights -/

def RemovedInv (st : GenState) : Prop :=
  (∀ g ∈ st.idea.Genres, g ∉ st.pool.GENRES) ∧
  (∀ t, st.idea.Protagonist = some t → t ∉ st.pool.PROTAGONIST) ∧
  (∀ t ∈ st.idea.ThemesEvents, t ∉ st.pool.THEME_and_EVENTS) ∧
  (∀ t ∈ st.idea.Finales, t ∉ st.pool.FINALE) ∧
  (∀ t, st.idea.Antagonist = some t → t ∉ st.pool.ANTAGONIST) ∧
  (∀ t ∈ st.idea.SupportingChars, t ∉ st.pool.SUPPORTINGCHARACTER)

def WeightsOK (idea : Idea) : Prop :=
  (idea.Genres.length = 1 ∧ idea.GenreWeights = [1]) ∨
  (idea.Genres.length = 2 ∧
    idea.GenreWeights ∈ [[(0.5 : ℚ), 0.5], [0.65, 0.35], [0.8, 0.2]]) ∨
  (idea.Genres.length = 3 ∧
    idea.GenreWeights ∈ [[(0.4 : ℚ), 0.3, 0.3], [0.6, 0.2, 0.2]])

def GenresInv (st0 st : GenState) (k : ℕ) : Prop :=
  ∃ gs : List Tag, gs.length = k ∧
    st.selected = st0.selected ++ gs ∧
    (∀ g ∈ gs, g ∈ st0.pool.GENRES) ∧
    gs.Nodup ∧
    (∀ g ∈ gs, g ∉ st.pool.GENRES) ∧
    (∀ g ∈ st.pool.GENRES, g ∈ st0.pool.GENRES) ∧
    st.idea = { st0.idea with Genres := st0.idea.Genres ++ gs } ∧
    st.pool.SETTING = st0.pool.SETTING ∧
    st.pool.PROTAGONIST = st0.pool.PROTAGONIST ∧
    st.pool.ANTAGONIST = st0.pool.ANTAGONIST ∧
    st.pool.SUPPORTINGCHARACTER = st0.pool.SUPPORTINGCHARACTER ∧
    st.pool.FINALE = st0.pool.FINALE ∧
    st.pool.THEME_and_EVENTS = st0.pool.THEME_and_EVENTS

/-! ## Additional concrete objects used by the claims -/

/-- A one-directional matrix: `5` from `"A"` to `"B"` only. -/
def mAsym : CompatData := fun a b =>
  if a = "A" ∧ b = "B" then some 5 else none

/-- Audience weights where only `"T1"` contributes, weight `4` for segment
`"S"`. -/
def awExample : AudienceWeights := fun t =>
  if t = "T1" then some (fun seg => if seg = "S" then some 4 else none) else none

/-- Audience weights with no entry for any tag. -/
def awNone : AudienceWeights := fun _ => none

/-- A one-segment audience group table. -/
def agExample : List (Seg × AudienceGroup) := [("S", ⟨some 1, some 1⟩)]

/-- An advertiser whose quality alone puts the no-overlap score
`30 * 0.5 = 15` above the match threshold. -/
def adBig : Advertiser := ⟨"Ad", "", some 30, []⟩

/-- A valid category selection: one genre, one setting, one protagonist. -/
def catsZero : List (String × List Tag) :=
  [("GENRES", ["g"]), ("SETTING", ["s"]), ("PROTAGONIST", ["p"])]

/-- `generatedIdea && generatedIdea.TotalScore >= MIN_REQUIRED_SCORE`. -/
def meetsScore : Option Idea → Bool
  | some i => decide (MIN_REQUIRED_SCORE ≤ i.TotalScore)
  | none => false

instance : IsTotal (String × ℚ) (fun a b => b.2 ≤ a.2) :=
  ⟨fun a b => le_total b.2 a.2⟩

instance : IsTrans (String × ℚ) (fun a b => b.2 ≤ a.2) :=
  ⟨fun _ _ _ h1 h2 => le_trans h2 h1⟩

/-! ## Basic lemmas -/

theorem getRandomElement_singleton (a : α) (s : List ℕ) :
    getRandomElement [a] s = (some a, s.tail) := by
  cases s <;> simp [getRandomElement, Nat.mod_one]

theorem getRandomElement_mem {arr : List α} {s s' : List ℕ} {x : α}
    (h : getRandomElement arr s = (some x, s')) : x ∈ arr := by
  match arr, s with
  | [], _ => simp [getRandomElement] at h
  | a :: arr', [] =>
    simp only [getRandomElement, Prod.mk.injEq] at h
    exact List.getElem?_mem h.1
  | a :: arr', n :: rest =>
    simp only [getRandomElement, Prod.mk.injEq] at h
    exact List.getElem?_mem h.1

theorem getRandomElement_cons_isSome (a : α) (arr : List α) (s : List ℕ) :
    ∃ x s', getRandomElement (a :: arr) s = (some x, s') := by
  match s with
  | [] => exact ⟨a, [], by simp [getRandomElement]⟩
  | n :: rest =>
    have hlt : n % (a :: arr).length < (a :: arr).length :=
      Nat.mod_lt _ (by simp)
    refine ⟨(a :: arr).get ⟨n % (a :: arr).length, hlt⟩, rest, ?_⟩
    simp [getRandomElement, List.getElem?_eq_getElem hlt]

/-! ## Scenario evaluations -/

/-- Fallback scenario: the setting `"S"` fails the strict pass (score 1 < 2) and
is selected by the fallback pass (1 ≥ 1); every other slot is forced.  The run
succeeds for every random supply. -/
theorem runFallback_eval (s : List ℕ) :
    generateMovieIdea poolA mFallback pA s =
      (some ideaA1, poolAEnd, s.tail.tail.tail.tail.tail) := by
  have hfb : fallbackScoreOf (2 : ℚ) = 1 := by norm_num [fallbackScoreOf]
  have h1 : findCompatibleTags ["S"] ["G"] mFallback 2 = [] := by decide
  have h2 : findCompatibleTags ["S"] ["G"] mFallback 1 = ["S"] := by decide
  have h3 : findCompatibleTags ["P"] ["G", "S"] mFallback 2 = ["P"] := by decide
  have h4 : findCompatibleTags ["T"] ["G", "S", "P"] mFallback 2 = ["T"] := by decide
  have h5 : findCompatibleTags ["F"] ["G", "S", "P", "T"] mFallback 2 = ["F"] := by decide
  have hg : stepGenres mFallback pA ⟨poolA, emptyIdea, [], s⟩ =
      .ok ⟨poolA1, ideaG1, ["G"], s.tail⟩ := by
    simp [twoTierCands, stepGenres, poolA, poolA1, pA, emptyIdea, ideaG1, getRandomElement_singleton,
      assignGenreWeights, Except.bind]
  have hs : stepSetting mFallback pA ⟨poolA1, ideaG1, ["G"], s.tail⟩ =
      .ok ⟨poolA1, ideaG2, ["G", "S"], s.tail.tail⟩ := by
    simp [twoTierCands, stepSetting, poolA, poolA1, pA, hfb, h1, h2, getRandomElement_singleton,
      emptyIdea, ideaG1, ideaG2]
  have hp : stepProtagonist mFallback pA ⟨poolA1, ideaG2, ["G", "S"], s.tail.tail⟩ =
      .ok ⟨poolA3, ideaG3, ["G", "S", "P"], s.tail.tail.tail⟩ := by
    simp [twoTierCands, stepProtagonist, poolA, poolA1, poolA3, pA, h3, getRandomElement_singleton,
      emptyIdea, ideaG1, ideaG2, ideaG3]
  have ht : stepThemes mFallback pA ⟨poolA3, ideaG3, ["G", "S", "P"], s.tail.tail.tail⟩ =
      .ok ⟨poolA4, ideaG4, ["G", "S", "P", "T"], s.tail.tail.tail.tail⟩ := by
    simp [stepThemes, themesLoop, poolA, poolA1, poolA3, poolA4, pA, h4,
      getRandomElement_singleton, uniqueList, emptyIdea, ideaG1, ideaG2, ideaG3, ideaG4]
  have hf : stepFinales mFallback pA
      ⟨poolA4, ideaG4, ["G", "S", "P", "T"], s.tail.tail.tail.tail⟩ =
      .ok ⟨poolAEnd, ideaG5, ["G", "S", "P", "T", "F"], s.tail.tail.tail.tail.tail⟩ := by
    simp [stepFinales, finalesLoop, poolA, poolA1, poolA3, poolA4, poolAEnd, pA, h5,
      getRandomElement_singleton, emptyIdea, ideaG1, ideaG2, ideaG3, ideaG4, ideaG5]
  have ha : stepAntagonist mFallback pA
      ⟨poolAEnd, ideaG5, ["G", "S", "P", "T", "F"], s.tail.tail.tail.tail.tail⟩ =
      .ok ⟨poolAEnd, ideaG5, ["G", "S", "P", "T", "F"], s.tail.tail.tail.tail.tail⟩ := by
    simp [stepAntagonist, pA]
  have hsup : stepSupport mFallback pA
      ⟨poolAEnd, ideaG5, ["G", "S", "P", "T", "F"], s.tail.tail.tail.tail.tail⟩ =
      .ok ⟨poolAEnd, ideaG5, ["G", "S", "P", "T", "F"], s.tail.tail.tail.tail.tail⟩ := by
    simp [stepSupport, supportLoop, pA, poolA, poolA1, poolA3, poolA4, poolAEnd]
  have hsc : stepScore mFallback
      ⟨poolAEnd, ideaG5, ["G", "S", "P", "T", "F"], s.tail.tail.tail.tail.tail⟩ =
      .ok ⟨poolAEnd, ideaA1, ["G", "S", "P", "T", "F"], s.tail.tail.tail.tail.tail⟩ := by
    simp [stepScore, emptyIdea, ideaG1, ideaG2, ideaG3, ideaG4, ideaG5, ideaA1,
      pairScoreTotal, pairScoreRow, weightLookup, buildGenreWeightPairs,
      getCompatibilityScore, mFallback, chainCompat, rankTag, round1]
    norm_num
  simp only [generateMovieIdea, prePipeline, hg, hs, hp, ht, hf, ha, hsup, hsc, Except.bind]

/-- Abort scenario: the setting fails both the strict and the fallback pass, so
the whole run aborts with no idea, for every random supply. -/
theorem runNoSetting_eval (s : List ℕ) :
    generateMovieIdea poolA mNoSetting pA s = (none, poolA1, s.tail) := by
  have hfb : fallbackScoreOf (2 : ℚ) = 1 := by norm_num [fallbackScoreOf]
  have h1 : findCompatibleTags ["S"] ["G"] mNoSetting 2 = [] := by decide
  have h2 : findCompatibleTags ["S"] ["G"] mNoSetting 1 = [] := by decide
  have hg : stepGenres mNoSetting pA ⟨poolA, emptyIdea, [], s⟩ =
      .ok ⟨poolA1, ideaG1, ["G"], s.tail⟩ := by
    simp [twoTierCands, stepGenres, poolA, poolA1, pA, emptyIdea, ideaG1, getRandomElement_singleton,
      assignGenreWeights, Except.bind]
  have hs : stepSetting mNoSetting pA ⟨poolA1, ideaG1, ["G"], s.tail⟩ =
      .error ⟨poolA1, ideaG1, ["G"], s.tail⟩ := by
    simp [twoTierCands, stepSetting, poolA, poolA1, pA, hfb, h1, h2]
  simp only [generateMovieIdea, prePipeline, hg, hs, Except.bind]

/-- Supporting-character underfill scenario: `num_support_target = 2` but only
`"C"` is compatible; the second slot produces exactly one warning and the run
still succeeds, for every random supply. -/
theorem runSupport_eval (s : List ℕ) :
    generateMovieIdea poolB mNoD pB s =
      (some ideaB, poolBEnd, s.tail.tail.tail.tail.tail.tail) := by
  have h1 : findCompatibleTags ["S"] ["G"] mNoD 2 = ["S"] := by decide
  have h3 : findCompatibleTags ["P"] ["G", "S"] mNoD 2 = ["P"] := by decide
  have h4 : findCompatibleTags ["T"] ["G", "S", "P"] mNoD 2 = ["T"] := by decide
  have h5 : findCompatibleTags ["F"] ["G", "S", "P", "T"] mNoD 2 = ["F"] := by decide
  have h6 : findCompatibleTags ["C", "D"] ["G", "S", "P", "T", "F"] mNoD 2 = ["C"] := by
    decide
  have h7 : findCompatibleTags ["D"] ["G", "S", "P", "T", "F", "C"] mNoD 2 = [] := by
    decide
  have hg : stepGenres mNoD pB ⟨poolB, emptyIdea, [], s⟩ =
      .ok ⟨poolB1, ideaG1, ["G"], s.tail⟩ := by
    simp [twoTierCands, stepGenres, poolB, poolA, poolB1, pB, pA, emptyIdea, ideaG1,
      getRandomElement_singleton, assignGenreWeights, Except.bind]
  have hs : stepSetting mNoD pB ⟨poolB1, ideaG1, ["G"], s.tail⟩ =
      .ok ⟨poolB1, ideaG2, ["G", "S"], s.tail.tail⟩ := by
    simp [twoTierCands, stepSetting, poolB, poolA, poolB1, pB, pA, h1, getRandomElement_singleton,
      emptyIdea, ideaG1, ideaG2]
  have hp : stepProtagonist mNoD pB ⟨poolB1, ideaG2, ["G", "S"], s.tail.tail⟩ =
      .ok ⟨poolB3, ideaG3, ["G", "S", "P"], s.tail.tail.tail⟩ := by
    simp [twoTierCands, stepProtagonist, poolB, poolA, poolB1, poolB3, pB, pA, h3,
      getRandomElement_singleton, emptyIdea, ideaG1, ideaG2, ideaG3]
  have ht : stepThemes mNoD pB ⟨poolB3, ideaG3, ["G", "S", "P"], s.tail.tail.tail⟩ =
      .ok ⟨poolB4, ideaG4, ["G", "S", "P", "T"], s.tail.tail.tail.tail⟩ := by
    simp [stepThemes, themesLoop, poolB, poolA, poolB1, poolB3, poolB4, pB, pA, h4,
      getRandomElement_singleton, uniqueList, emptyIdea, ideaG1, ideaG2, ideaG3, ideaG4]
  have hf : stepFinales mNoD pB
      ⟨poolB4, ideaG4, ["G", "S", "P", "T"], s.tail.tail.tail.tail⟩ =
      .ok ⟨poolB5, ideaG5, ["G", "S", "P", "T", "F"], s.tail.tail.tail.tail.tail⟩ := by
    simp [stepFinales, finalesLoop, poolB, poolA, poolB1, poolB3, poolB4, poolB5, pB, pA,
      h5, getRandomElement_singleton, emptyIdea, ideaG1, ideaG2, ideaG3, ideaG4, ideaG5]
  have ha : stepAntagonist mNoD pB
      ⟨poolB5, ideaG5, ["G", "S", "P", "T", "F"], s.tail.tail.tail.tail.tail⟩ =
      .ok ⟨poolB5, ideaG5, ["G", "S", "P", "T", "F"], s.tail.tail.tail.tail.tail⟩ := by
    simp [stepAntagonist, pB, pA]
  have hsup : stepSupport mNoD pB
      ⟨poolB5, ideaG5, ["G", "S", "P", "T", "F"], s.tail.tail.tail.tail.tail⟩ =
      .ok ⟨poolBEnd, ideaB6, ["G", "S", "P", "T", "F", "C"],
        s.tail.tail.tail.tail.tail.tail⟩ := by
    simp [stepSupport, supportLoop, pB, pA, poolB, poolA, poolB1, poolB3, poolB4, poolB5,
      poolBEnd, h6, h7, getRandomElement_singleton, emptyIdea, ideaG1, ideaG2, ideaG3,
      ideaG4, ideaG5, ideaB6, addWarning]
  have hsc : stepScore mNoD
      ⟨poolBEnd, ideaB6, ["G", "S", "P", "T", "F", "C"],
        s.tail.tail.tail.tail.tail.tail⟩ =
      .ok ⟨poolBEnd, ideaB, ["G", "S", "P", "T", "F", "C"],
        s.tail.tail.tail.tail.tail.tail⟩ := by
    simp [stepScore, emptyIdea, ideaG1, ideaG2, ideaG3, ideaG4, ideaG5, ideaB6, ideaB,
      pairScoreTotal, pairScoreRow, weightLookup, buildGenreWeightPairs,
      getCompatibilityScore, mNoD, chainCompat, rankTag, round1]
    norm_num
  simp only [generateMovieIdea, prePipeline, hg, hs, hp, ht, hf, ha, hsup, hsc, Except.bind]

/-- Incompatible-antagonist scenario: `add_antagonist` is on but the only
antagonist is incompatible at `min_score`; the run records one warning, selects
no antagonist and still succeeds, for every random supply. -/
theorem runAntag_eval (s : List ℕ) :
    generateMovieIdea poolD mNoD pD s =
      (some ideaD, poolDEnd, s.tail.tail.tail.tail.tail) := by
  have h1 : findCompatibleTags ["S"] ["G"] mNoD 2 = ["S"] := by decide
  have h3 : findCompatibleTags ["P"] ["G", "S"] mNoD 2 = ["P"] := by decide
  have h4 : findCompatibleTags ["T"] ["G", "S", "P"] mNoD 2 = ["T"] := by decide
  have h5 : findCompatibleTags ["F"] ["G", "S", "P", "T"] mNoD 2 = ["F"] := by decide
  have h6 : findCompatibleTags ["D"] ["G", "S", "P", "T", "F"] mNoD 2 = [] := by decide
  have hg : stepGenres mNoD pD ⟨poolD, emptyIdea, [], s⟩ =
      .ok ⟨poolD1, ideaG1, ["G"], s.tail⟩ := by
    simp [twoTierCands, stepGenres, poolD, poolA, poolD1, pD, pA, emptyIdea, ideaG1,
      getRandomElement_singleton, assignGenreWeights, Except.bind]
  have hs : stepSetting mNoD pD ⟨poolD1, ideaG1, ["G"], s.tail⟩ =
      .ok ⟨poolD1, ideaG2, ["G", "S"], s.tail.tail⟩ := by
    simp [twoTierCands, stepSetting, poolD, poolA, poolD1, pD, pA, h1, getRandomElement_singleton,
      emptyIdea, ideaG1, ideaG2]
  have hp : stepProtagonist mNoD pD ⟨poolD1, ideaG2, ["G", "S"], s.tail.tail⟩ =
      .ok ⟨poolD3, ideaG3, ["G", "S", "P"], s.tail.tail.tail⟩ := by
    simp [twoTierCands, stepProtagonist, poolD, poolA, poolD1, poolD3, pD, pA, h3,
      getRandomElement_singleton, emptyIdea, ideaG1, ideaG2, ideaG3]
  have ht : stepThemes mNoD pD ⟨poolD3, ideaG3, ["G", "S", "P"], s.tail.tail.tail⟩ =
      .ok ⟨poolD4, ideaG4, ["G", "S", "P", "T"], s.tail.tail.tail.tail⟩ := by
    simp [stepThemes, themesLoop, poolD, poolA, poolD1, poolD3, poolD4, pD, pA, h4,
      getRandomElement_singleton, uniqueList, emptyIdea, ideaG1, ideaG2, ideaG3, ideaG4]
  have hf : stepFinales mNoD pD
      ⟨poolD4, ideaG4, ["G", "S", "P", "T"], s.tail.tail.tail.tail⟩ =
      .ok ⟨poolDEnd, ideaG5, ["G", "S", "P", "T", "F"], s.tail.tail.tail.tail.tail⟩ := by
    simp [stepFinales, finalesLoop, poolD, poolA, poolD1, poolD3, poolD4, poolDEnd, pD,
      pA, h5, getRandomElement_singleton, emptyIdea, ideaG1, ideaG2, ideaG3, ideaG4,
      ideaG5]
  have ha : stepAntagonist mNoD pD
      ⟨poolDEnd, ideaG5, ["G", "S", "P", "T", "F"], s.tail.tail.tail.tail.tail⟩ =
      .ok ⟨poolDEnd, ideaD6, ["G", "S", "P", "T", "F"], s.tail.tail.tail.tail.tail⟩ := by
    simp [stepAntagonist, pD, pA, poolD, poolA, poolD1, poolD3, poolD4, poolDEnd, h6,
      emptyIdea, ideaG1, ideaG2, ideaG3, ideaG4, ideaG5, ideaD6, addWarning]
  have hsup : stepSupport mNoD pD
      ⟨poolDEnd, ideaD6, ["G", "S", "P", "T", "F"], s.tail.tail.tail.tail.tail⟩ =
      .ok ⟨poolDEnd, ideaD6, ["G", "S", "P", "T", "F"], s.tail.tail.tail.tail.tail⟩ := by
    simp [stepSupport, supportLoop, pD, pA, poolD, poolA, poolD1, poolD3, poolD4,
      poolDEnd]
  have hsc : stepScore mNoD
      ⟨poolDEnd, ideaD6, ["G", "S", "P", "T", "F"], s.tail.tail.tail.tail.tail⟩ =
      .ok ⟨poolDEnd, ideaD, ["G", "S", "P", "T", "F"], s.tail.tail.tail.tail.tail⟩ := by
    simp [stepScore, emptyIdea, ideaG1, ideaG2, ideaG3, ideaG4, ideaG5, ideaD6, ideaD,
      pairScoreTotal, pairScoreRow, weightLookup, buildGenreWeightPairs,
      getCompatibilityScore, mNoD, chainCompat, rankTag, round1]
    norm_num
  simp only [generateMovieIdea, prePipeline, hg, hs, hp, ht, hf, ha, hsup, hsc, Except.bind]

/-- Strict-only-subsequent-theme scenario: `num_themes_target = 2`; the second
candidate `"U"` scores 1 — enough for the fallback threshold 1 but below
`min_score = 2`.  The second pick is strict-only, so it fails with exactly one
warning (no fallback is attempted) and the run still succeeds, for every random
supply. -/
theorem runThemes_eval (s : List ℕ) :
    generateMovieIdea poolE mWeakU pE s =
      (some ideaE, poolEEnd, s.tail.tail.tail.tail.tail) := by
  have h1 : findCompatibleTags ["S"] ["G"] mWeakU 2 = ["S"] := by decide
  have h3 : findCompatibleTags ["P"] ["G", "S"] mWeakU 2 = ["P"] := by decide
  have h4 : findCompatibleTags ["T", "U"] ["G", "S", "P"] mWeakU 2 = ["T"] := by decide
  have h4b : findCompatibleTags ["U"] ["G", "S", "P", "T"] mWeakU 2 = [] := by decide
  have h5 : findCompatibleTags ["F"] ["G", "S", "P", "T"] mWeakU 2 = ["F"] := by decide
  have hu : uniqueList ["T", "U"] = ["T", "U"] := by decide
  have hg : stepGenres mWeakU pE ⟨poolE, emptyIdea, [], s⟩ =
      .ok ⟨poolE1, ideaG1, ["G"], s.tail⟩ := by
    simp [twoTierCands, stepGenres, poolE, poolA, poolE1, pE, pA, emptyIdea, ideaG1,
      getRandomElement_singleton, assignGenreWeights, Except.bind]
  have hs : stepSetting mWeakU pE ⟨poolE1, ideaG1, ["G"], s.tail⟩ =
      .ok ⟨poolE1, ideaG2, ["G", "S"], s.tail.tail⟩ := by
    simp [twoTierCands, stepSetting, poolE, poolA, poolE1, pE, pA, h1, getRandomElement_singleton,
      emptyIdea, ideaG1, ideaG2]
  have hp : stepProtagonist mWeakU pE ⟨poolE1, ideaG2, ["G", "S"], s.tail.tail⟩ =
      .ok ⟨poolE3, ideaG3, ["G", "S", "P"], s.tail.tail.tail⟩ := by
    simp [twoTierCands, stepProtagonist, poolE, poolA, poolE1, poolE3, pE, pA, h3,
      getRandomElement_singleton, emptyIdea, ideaG1, ideaG2, ideaG3]
  have ht : stepThemes mWeakU pE ⟨poolE3, ideaG3, ["G", "S", "P"], s.tail.tail.tail⟩ =
      .ok ⟨poolE4, ideaE4, ["G", "S", "P", "T"], s.tail.tail.tail.tail⟩ := by
    simp [stepThemes, themesLoop, poolE, poolA, poolE1, poolE3, poolE4, pE, pA, h4, h4b,
      hu, getRandomElement_singleton, emptyIdea, ideaG1, ideaG2, ideaG3, ideaE4,
      addWarning]
  have hf : stepFinales mWeakU pE
      ⟨poolE4, ideaE4, ["G", "S", "P", "T"], s.tail.tail.tail.tail⟩ =
      .ok ⟨poolEEnd, ideaE5, ["G", "S", "P", "T", "F"], s.tail.tail.tail.tail.tail⟩ := by
    simp [stepFinales, finalesLoop, poolE, poolA, poolE1, poolE3, poolE4, poolEEnd, pE,
      pA, h5, getRandomElement_singleton, emptyIdea, ideaG1, ideaG2, ideaG3, ideaE4,
      ideaE5]
  have ha : stepAntagonist mWeakU pE
      ⟨poolEEnd, ideaE5, ["G", "S", "P", "T", "F"], s.tail.tail.tail.tail.tail⟩ =
      .ok ⟨poolEEnd, ideaE5, ["G", "S", "P", "T", "F"], s.tail.tail.tail.tail.tail⟩ := by
    simp [stepAntagonist, pE, pA]
  have hsup : stepSupport mWeakU pE
      ⟨poolEEnd, ideaE5, ["G", "S", "P", "T", "F"], s.tail.tail.tail.tail.tail⟩ =
      .ok ⟨poolEEnd, ideaE5, ["G", "S", "P", "T", "F"], s.tail.tail.tail.tail.tail⟩ := by
    simp [stepSupport, supportLoop, pE, pA, poolE, poolA, poolE1, poolE3, poolE4,
      poolEEnd]
  have hsc : stepScore mWeakU
      ⟨poolEEnd, ideaE5, ["G", "S", "P", "T", "F"], s.tail.tail.tail.tail.tail⟩ =
      .ok ⟨poolEEnd, ideaE, ["G", "S", "P", "T", "F"], s.tail.tail.tail.tail.tail⟩ := by
    simp [stepScore, emptyIdea, ideaG1, ideaG2, ideaG3, ideaE4, ideaE5, ideaE,
      pairScoreTotal, pairScoreRow, weightLookup, buildGenreWeightPairs,
      getCompatibilityScore, mWeakU, chainCompat, rankTag, round1]
    norm_num
  simp only [generateMovieIdea, prePipeline, hg, hs, hp, ht, hf, ha, hsup, hsc, Except.bind]

/-- Duplicated-tag scenario: the tag string `"X"` is both the only genre and the
only setting; the setting stage does not filter against the already-selected
tags, so `"X"` is selected twice and `AllTags` contains a duplicate. -/
theorem runDup_eval (s : List ℕ) :
    generateMovieIdea poolDup mDup pA s =
      (some ideaDup, poolDupEnd, s.tail.tail.tail.tail.tail) := by
  have h1 : findCompatibleTags ["X"] ["X"] mDup 2 = ["X"] := by decide
  have h3 : findCompatibleTags ["P"] ["X", "X"] mDup 2 = ["P"] := by decide
  have h4 : findCompatibleTags ["T"] ["X", "X", "P"] mDup 2 = ["T"] := by decide
  have h5 : findCompatibleTags ["F"] ["X", "X", "P", "T"] mDup 2 = ["F"] := by decide
  have hg : stepGenres mDup pA ⟨poolDup, emptyIdea, [], s⟩ =
      .ok ⟨poolDup1, ideaX1, ["X"], s.tail⟩ := by
    simp [twoTierCands, stepGenres, poolDup, poolA, poolDup1, pA, emptyIdea, ideaX1,
      getRandomElement_singleton, assignGenreWeights, Except.bind]
  have hs : stepSetting mDup pA ⟨poolDup1, ideaX1, ["X"], s.tail⟩ =
      .ok ⟨poolDup1, ideaX2, ["X", "X"], s.tail.tail⟩ := by
    simp [twoTierCands, stepSetting, poolDup, poolA, poolDup1, pA, h1, getRandomElement_singleton,
      emptyIdea, ideaX1, ideaX2]
  have hp : stepProtagonist mDup pA ⟨poolDup1, ideaX2, ["X", "X"], s.tail.tail⟩ =
      .ok ⟨poolDup3, ideaX3, ["X", "X", "P"], s.tail.tail.tail⟩ := by
    simp [twoTierCands, stepProtagonist, poolDup, poolA, poolDup1, poolDup3, pA, h3,
      getRandomElement_singleton, emptyIdea, ideaX1, ideaX2, ideaX3]
  have ht : stepThemes mDup pA ⟨poolDup3, ideaX3, ["X", "X", "P"], s.tail.tail.tail⟩ =
      .ok ⟨poolDup4, ideaX4, ["X", "X", "P", "T"], s.tail.tail.tail.tail⟩ := by
    simp [stepThemes, themesLoop, poolDup, poolA, poolDup1, poolDup3, poolDup4, pA, h4,
      getRandomElement_singleton, uniqueList, emptyIdea, ideaX1, ideaX2, ideaX3, ideaX4]
  have hf : stepFinales mDup pA
      ⟨poolDup4, ideaX4, ["X", "X", "P", "T"], s.tail.tail.tail.tail⟩ =
      .ok ⟨poolDupEnd, ideaX5, ["X", "X", "P", "T", "F"],
        s.tail.tail.tail.tail.tail⟩ := by
    simp [stepFinales, finalesLoop, poolDup, poolA, poolDup1, poolDup3, poolDup4,
      poolDupEnd, pA, h5, getRandomElement_singleton, emptyIdea, ideaX1, ideaX2, ideaX3,
      ideaX4, ideaX5]
  have ha : stepAntagonist mDup pA
      ⟨poolDupEnd, ideaX5, ["X", "X", "P", "T", "F"], s.tail.tail.tail.tail.tail⟩ =
      .ok ⟨poolDupEnd, ideaX5, ["X", "X", "P", "T", "F"], s.tail.tail.tail.tail.tail⟩ := by
    simp [stepAntagonist, pA]
  have hsup : stepSupport mDup pA
      ⟨poolDupEnd, ideaX5, ["X", "X", "P", "T", "F"], s.tail.tail.tail.tail.tail⟩ =
      .ok ⟨poolDupEnd, ideaX5, ["X", "X", "P", "T", "F"], s.tail.tail.tail.tail.tail⟩ := by
    simp [stepSupport, supportLoop, pA, poolDup, poolA, poolDup1, poolDup3, poolDup4,
      poolDupEnd]
  have hsc : stepScore mDup
      ⟨poolDupEnd, ideaX5, ["X", "X", "P", "T", "F"], s.tail.tail.tail.tail.tail⟩ =
      .ok ⟨poolDupEnd, ideaDup, ["X", "X", "P", "T", "F"],
        s.tail.tail.tail.tail.tail⟩ := by
    simp [stepScore, emptyIdea, ideaX1, ideaX2, ideaX3, ideaX4, ideaX5, ideaDup,
      pairScoreTotal, pairScoreRow, weightLookup, buildGenreWeightPairs,
      getCompatibilityScore, mDup, chainCompat, rankTag, round1]
    norm_num
  simp only [generateMovieIdea, prePipeline, hg, hs, hp, ht, hf, ha, hsup, hsc, Except.bind]

/-! ## Step characterisation lemmas -/

theorem except_bind_ok_elim {ε α β : Type} {x : Except ε α} {f : α → Except ε β} {b : β}
    (h : x.bind f = .ok b) : ∃ a, x = .ok a ∧ f a = .ok b := by
  cases x
  · simp [Except.bind] at h
  · exact ⟨_, rfl, h⟩

theorem findCompatibleTags_subset {x : Tag} {cands existing : List Tag} {m : CompatData}
    {r : ℚ} (h : x ∈ findCompatibleTags cands existing m r) : x ∈ cands := by
  unfold findCompatibleTags at h
  split at h
  · simp at h
  · exact List.mem_of_mem_filter h

theorem twoTierCands_subset {x : Tag} {cands sel : List Tag} {m : CompatData} {p : Params}
    (h : x ∈ twoTierCands cands sel m p) : x ∈ cands := by
  unfold twoTierCands at h
  simp only [] at h
  split at h <;> exact findCompatibleTags_subset h

theorem stepSetting_ok {m : CompatData} {p : Params} {st st' : GenState}
    (h : stepSetting m p st = .ok st') :
    ∃ t, t ∈ st.pool.SETTING ∧ st'.pool = st.pool ∧
      st'.idea = { st.idea with Setting := some t } ∧
      st'.selected = st.selected ++ [t] := by
  unfold stepSetting at h
  simp only [] at h
  split at h
  · exact absurd h (by simp)
  split at h
  · exact absurd h (by simp)
  split at h
  · exact absurd h (by simp)
  rename_i t s' hget
  cases h
  exact ⟨t, twoTierCands_subset (getRandomElement_mem hget), rfl, rfl, rfl⟩

theorem stepProtagonist_ok {m : CompatData} {p : Params} {st st' : GenState}
    (h : stepProtagonist m p st = .ok st') :
    ∃ t, t ∈ st.pool.PROTAGONIST ∧
      st'.pool = { st.pool with
        PROTAGONIST := st.pool.PROTAGONIST.filter (fun x => x != t) } ∧
      st'.idea = { st.idea with Protagonist := some t } ∧
      st'.selected = st.selected ++ [t] := by
  unfold stepProtagonist at h
  simp only [] at h
  split at h
  · exact absurd h (by simp)
  split at h
  · exact absurd h (by simp)
  split at h
  · exact absurd h (by simp)
  rename_i t s' hget
  cases h
  exact ⟨t, twoTierCands_subset (getRandomElement_mem hget), rfl, rfl, rfl⟩

theorem pickAdditionalGenre_ok {m : CompatData} {p : Params} {st st' : GenState}
    (h : pickAdditionalGenre m p st = .ok st') :
    ∃ g, g ∈ st.pool.GENRES ∧
      st'.pool = { st.pool with GENRES := st.pool.GENRES.filter (fun x => x != g) } ∧
      st'.idea = { st.idea with Genres := st.idea.Genres ++ [g] } ∧
      st'.selected = st.selected ++ [g] := by
  unfold pickAdditionalGenre at h
  simp only [] at h
  split at h
  · exact absurd h (by simp)
  split at h
  · exact absurd h (by simp)
  split at h
  · exact absurd h (by simp)
  rename_i g s' hget
  cases h
  exact ⟨g, twoTierCands_subset (getRandomElement_mem hget), rfl, rfl, rfl⟩

theorem stepAntagonist_ok {m : CompatData} {p : Params} {st st' : GenState}
    (h : stepAntagonist m p st = .ok st') :
    (st'.pool = st.pool ∧ st'.selected = st.selected ∧
      ∃ w, st'.idea = { st.idea with Warnings := st.idea.Warnings ++ w }) ∨
    (∃ t, t ∈ st.pool.ANTAGONIST ∧ t ∉ st.selected ∧
      st'.pool = { st.pool with
        ANTAGONIST := st.pool.ANTAGONIST.filter (fun x => x != t) } ∧
      st'.idea = { st.idea with Antagonist := some t } ∧
      st'.selected = st.selected ++ [t]) := by
  unfold stepAntagonist at h
  simp only [] at h
  split at h
  · split at h
    · cases h
      exact .inl ⟨rfl, rfl, [antagNoTagsMsg], rfl⟩
    · split at h
      · cases h
        exact .inl ⟨rfl, rfl, [antagIncompatMsg], rfl⟩
      · split at h
        · exact absurd h (by simp)
        · rename_i t s' hget
          cases h
          have hav := findCompatibleTags_subset (getRandomElement_mem hget)
          refine .inr ⟨t, List.mem_of_mem_filter hav, ?_, rfl, rfl, rfl⟩
          have := List.of_mem_filter hav
          simpa using this
  · cases h
    exact .inl ⟨rfl, rfl, [], by simp⟩

theorem stepScore_ok {m : CompatData} {st st' : GenState}
    (h : stepScore m st = .ok st') :
    st'.pool = st.pool ∧ st'.selected = st.selected ∧
      st'.idea = { st.idea with
        TotalScore := round1 (pairScoreTotal m
          (weightLookup (buildGenreWeightPairs st.idea.Genres st.idea.GenreWeights))
          st.selected),
        AllTags := st.selected } := by
  unfold stepScore at h
  cases h
  exact ⟨rfl, rfl, rfl⟩


theorem assignGenreWeights_ok {st st' : GenState} (h : assignGenreWeights st = .ok st') :
    ∃ ws, st'.idea = { st.idea with GenreWeights := ws } ∧
      st'.pool = st.pool ∧ st'.selected = st.selected ∧
      (st.idea.Genres.length = 1 → ws = [1]) ∧
      (st.idea.Genres.length = 2 → ws ∈ [[(0.5 : ℚ), 0.5], [0.65, 0.35], [0.8, 0.2]]) ∧
      (st.idea.Genres.length = 3 → ws ∈ [[(0.4 : ℚ), 0.3, 0.3], [0.6, 0.2, 0.2]]) := by
  unfold assignGenreWeights at h
  split at h
  · rename_i x hlen
    cases h
    exact ⟨[1], rfl, rfl, rfl, fun _ => rfl, fun h2 => by omega, fun h3 => by omega⟩
  · rename_i x hlen
    split at h
    · rename_i w s' hget
      cases h
      exact ⟨w, rfl, rfl, rfl, fun h1 => by omega, fun _ => getRandomElement_mem hget,
        fun h3 => by omega⟩
    · exact absurd h (by simp)
  · rename_i x hlen
    split at h
    · rename_i w s' hget
      cases h
      exact ⟨w, rfl, rfl, rfl, fun h1 => by omega, fun h2 => by omega,
        fun _ => getRandomElement_mem hget⟩
    · exact absurd h (by simp)
  · rename_i x hn1 hn2 hn3
    cases h
    exact ⟨_, rfl, rfl, rfl, fun hl => absurd hl hn1, fun hl => absurd hl hn2,
      fun hl => absurd hl hn3⟩



theorem genresInv_step {m : CompatData} {p : Params} {st0 st st' : GenState} {k : ℕ}
    (hInv : GenresInv st0 st k) (h : pickAdditionalGenre m p st = .ok st') :
    GenresInv st0 st' (k + 1) := by
  obtain ⟨gs, hlen, hsel, hsub, hnd, hrem, hps, hidea, e1, e2, e3, e4, e5, e6⟩ := hInv
  obtain ⟨g, hgmem, hpool, hidea', hsel'⟩ := pickAdditionalGenre_ok h
  refine ⟨gs ++ [g], by simp [hlen], by rw [hsel', hsel]; simp, ?_, ?_, ?_, ?_, ?_,
    by rw [hpool]; exact e1, by rw [hpool]; exact e2, by rw [hpool]; exact e3,
    by rw [hpool]; exact e4, by rw [hpool]; exact e5, by rw [hpool]; exact e6⟩
  · intro x hx
    rcases List.mem_append.1 hx with hx | hx
    · exact hsub x hx
    · simp only [List.mem_singleton] at hx
      subst hx
      exact hps _ hgmem
  · refine List.Nodup.append hnd (by simp) ?_
    intro x hx hy
    simp only [List.mem_singleton] at hy
    subst hy
    exact hrem x hx hgmem
  · intro x hx
    rw [hpool]
    rcases List.mem_append.1 hx with hx | hx
    · simp only [List.mem_filter]
      intro hcon
      exact hrem x hx hcon.1
    · simp only [List.mem_singleton] at hx
      subst hx
      simp [List.mem_filter]
  · intro x hx
    rw [hpool] at hx
    simp only [List.mem_filter] at hx
    exact hps x hx.1
  · rw [hidea', hidea]
    simp


theorem stepGenres_ok {m : CompatData} {p : Params} {st st' : GenState}
    (h : stepGenres m p st = .ok st') :
    ∃ gs : List Tag, st'.selected = st.selected ++ gs ∧
      (∀ g ∈ gs, g ∈ st.pool.GENRES) ∧
      gs.Nodup ∧
      (∀ g ∈ gs, g ∉ st'.pool.GENRES) ∧
      (∀ g ∈ st'.pool.GENRES, g ∈ st.pool.GENRES) ∧
      (∃ ws, st'.idea =
        { st.idea with Genres := st.idea.Genres ++ gs, GenreWeights := ws }) ∧
      st'.pool.SETTING = st.pool.SETTING ∧
      st'.pool.PROTAGONIST = st.pool.PROTAGONIST ∧
      st'.pool.ANTAGONIST = st.pool.ANTAGONIST ∧
      st'.pool.SUPPORTINGCHARACTER = st.pool.SUPPORTINGCHARACTER ∧
      st'.pool.FINALE = st.pool.FINALE ∧
      st'.pool.THEME_and_EVENTS = st.pool.THEME_and_EVENTS ∧
      (st.idea.Genres = [] → WeightsOK st'.idea) := by
  unfold stepGenres at h
  simp only [] at h
  split at h
  · exact absurd h (by simp)
  split at h
  · exact absurd h (by simp)
  split at h
  · exact absurd h (by simp)
  rename_i g1 s1 hget1
  have hg1 : g1 ∈ st.pool.GENRES := getRandomElement_mem hget1
  obtain ⟨st3, h12, hW⟩ := except_bind_ok_elim h
  obtain ⟨st2, h1, h2⟩ := except_bind_ok_elim h12
  obtain ⟨ws, hWidea, hWpool, hWsel, hw1, hw2, hw3⟩ := assignGenreWeights_ok hW
  have hbase : GenresInv st
      ⟨{ st.pool with GENRES := st.pool.GENRES.filter (fun x => x != g1) },
       { st.idea with Genres := st.idea.Genres ++ [g1] },
       st.selected ++ [g1], s1⟩ 1 := by
    refine ⟨[g1], rfl, rfl, by simpa using hg1, by simp, ?_, ?_, rfl, rfl, rfl, rfl,
      rfl, rfl, rfl⟩
    · intro g hg
      simp only [List.mem_singleton] at hg
      subst hg
      simp [List.mem_filter]
    · intro g hg
      exact List.mem_of_mem_filter hg
  have hmain : ∃ k, (k = 1 ∨ k = 2 ∨ k = 3) ∧ GenresInv st st3 k := by
    split at h1
    · have h2inv := genresInv_step hbase h1
      split at h2
      · exact ⟨3, by simp, genresInv_step h2inv h2⟩
      · cases h2
        exact ⟨2, by simp, h2inv⟩
    · cases h1
      split at h2
      · exact ⟨2, by simp, genresInv_step hbase h2⟩
      · cases h2
        exact ⟨1, by simp, hbase⟩
  obtain ⟨k, hk, gs, hlen, hsel, hsub, hnd, hrem, hps, hidea, e1, e2, e3, e4, e5, e6⟩ :=
    hmain
  have hG3 : st3.idea.Genres = st.idea.Genres ++ gs := by rw [hidea]
  have hI' : st'.idea.Genres = st.idea.Genres ++ gs ∧ st'.idea.GenreWeights = ws := by
    rw [hWidea]
    exact ⟨hG3, rfl⟩
  refine ⟨gs, ?_, hsub, hnd, ?_, ?_, ⟨ws, ?_⟩, ?_, ?_, ?_, ?_, ?_, ?_, ?_⟩
  · rw [hWsel, hsel]
  · intro g hg
    rw [hWpool]
    exact hrem g hg
  · intro g hg
    rw [hWpool] at hg
    exact hps g hg
  · rw [hWidea, hidea]
  · rw [hWpool]; exact e1
  · rw [hWpool]; exact e2
  · rw [hWpool]; exact e3
  · rw [hWpool]; exact e4
  · rw [hWpool]; exact e5
  · rw [hWpool]; exact e6
  · intro hG0
    have hlen3 : st3.idea.Genres.length = k := by rw [hG3, hG0]; simpa using hlen
    rcases hk with rfl | rfl | rfl
    · exact .inl ⟨by simp [hI'.1, hG0, hlen], by rw [hI'.2]; exact hw1 hlen3⟩
    · exact .inr (.inl ⟨by simp [hI'.1, hG0, hlen], by rw [hI'.2]; exact hw2 hlen3⟩)
    · exact .inr (.inr ⟨by simp [hI'.1, hG0, hlen], by rw [hI'.2]; exact hw3 hlen3⟩)


theorem themesLoop_ok (m : CompatData) (p : Params) :
    ∀ (fuel i : ℕ) (available : List Tag) (st st' : GenState),
      themesLoop m p i fuel available st = .ok st' →
      ∃ (new : List Tag) (warns : List String) (th ev te : List Tag),
        st'.selected = st.selected ++ new ∧
        st'.idea =
          { st.idea with
            ThemesEvents := st.idea.ThemesEvents ++ new,
            Warnings := st.idea.Warnings ++ warns } ∧
        st'.pool = { st.pool with THEME := th, EVENT := ev, THEME_and_EVENTS := te } ∧
        (∀ x ∈ new, x ∈ available) ∧
        (∀ x ∈ te, x ∈ st.pool.THEME_and_EVENTS ∧ x ∉ new) ∧
        ((∀ x ∈ available, x ∉ st.selected) → st.selected.Nodup →
          (st.selected ++ new).Nodup)
  | 0, i, available, st, st', h => by
    cases h
    exact ⟨[], [], st.pool.THEME, st.pool.EVENT, st.pool.THEME_and_EVENTS,
      by simp, by simp, rfl, by simp, fun x hx => ⟨hx, by simp⟩,
      fun _ hn => by simpa using hn⟩
  | fuel + 1, i, available, st, st', h => by
    unfold themesLoop at h
    simp only [] at h
    split at h
    · split at h
      · exact absurd h (by simp)
      · cases h
        exact ⟨[], [themeNoTagsMsg i p.num_themes_target], st.pool.THEME, st.pool.EVENT,
          st.pool.THEME_and_EVENTS, by simp [addWarning], by simp [addWarning], rfl,
          by simp, fun x hx => ⟨hx, by simp⟩, fun _ hn => by simpa using hn⟩
    · split at h
      · cases h
        exact ⟨[], [themeIncompatMsg i p.num_themes_target p.min_score], st.pool.THEME,
          st.pool.EVENT, st.pool.THEME_and_EVENTS, by simp [addWarning],
          by simp [addWarning], rfl, by simp, fun x hx => ⟨hx, by simp⟩,
          fun _ hn => by simpa using hn⟩
      · split at h
        · split at h
          · exact absurd h (by simp)
          · split at h
            · exact absurd h (by simp)
            · rename_i c s' hget
              have hcav : c ∈ available :=
                findCompatibleTags_subset (getRandomElement_mem hget)
              obtain ⟨new1, warns1, th1, ev1, te1, hsel, hidea, hpool, hsub, hte, hnd⟩ :=
                themesLoop_ok m p fuel (i + 1) (available.filter (fun x => x != c)) _ _ h
              refine ⟨c :: new1, warns1, th1, ev1, te1, ?_, ?_, ?_, ?_, ?_, ?_⟩
              · rw [hsel]; simp
              · rw [hidea]; simp
              · rw [hpool]
              · intro x hx
                rcases List.mem_cons.1 hx with rfl | hx
                · exact hcav
                · exact List.mem_of_mem_filter (hsub x hx)
              · intro x hx
                obtain ⟨hx1, hx2⟩ := hte x hx
                simp only [] at hx1
                refine ⟨List.mem_of_mem_filter hx1, ?_⟩
                intro hcon
                rcases List.mem_cons.1 hcon with rfl | hcon
                · have := List.of_mem_filter hx1
                  simp at this
                · exact hx2 hcon
              · intro hav hn
                have hcns : c ∉ st.selected := hav c hcav
                have hstep : (st.selected ++ [c]).Nodup := by
                  simp [List.nodup_append, hn, hcns]
                have hav1 : ∀ x ∈ available.filter (fun x => x != c),
                    x ∉ st.selected ++ [c] := by
                  intro x hx
                  have hxa := List.mem_of_mem_filter hx
                  have hxc := List.of_mem_filter hx
                  simp only [bne_iff_ne, ne_eq] at hxc
                  simp [hav x hxa, hxc]
                have := hnd hav1 hstep
                simpa using this
        · split at h
          · exact absurd h (by simp)
          · split at h
            · exact absurd h (by simp)
            · rename_i c s' hget
              have hcav : c ∈ available :=
                findCompatibleTags_subset (getRandomElement_mem hget)
              obtain ⟨new1, warns1, th1, ev1, te1, hsel, hidea, hpool, hsub, hte, hnd⟩ :=
                themesLoop_ok m p fuel (i + 1) (available.filter (fun x => x != c)) _ _ h
              refine ⟨c :: new1, warns1, th1, ev1, te1, ?_, ?_, ?_, ?_, ?_, ?_⟩
              · rw [hsel]; simp
              · rw [hidea]; simp
              · rw [hpool]
              · intro x hx
                rcases List.mem_cons.1 hx with rfl | hx
                · exact hcav
                · exact List.mem_of_mem_filter (hsub x hx)
              · intro x hx
                obtain ⟨hx1, hx2⟩ := hte x hx
                simp only [] at hx1
                refine ⟨List.mem_of_mem_filter hx1, ?_⟩
                intro hcon
                rcases List.mem_cons.1 hcon with rfl | hcon
                · have := List.of_mem_filter hx1
                  simp at this
                · exact hx2 hcon
              · intro hav hn
                have hcns : c ∉ st.selected := hav c hcav
                have hstep : (st.selected ++ [c]).Nodup := by
                  simp [List.nodup_append, hn, hcns]
                have hav1 : ∀ x ∈ available.filter (fun x => x != c),
                    x ∉ st.selected ++ [c] := by
                  intro x hx
                  have hxa := List.mem_of_mem_filter hx
                  have hxc := List.of_mem_filter hx
                  simp only [bne_iff_ne, ne_eq] at hxc
                  simp [hav x hxa, hxc]
                have := hnd hav1 hstep
                simpa using this
  termination_by fuel i available st st' h => fuel


theorem finalesLoop_ok (m : CompatData) (p : Params) :
    ∀ (fuel i : ℕ) (available : List Tag) (st st' : GenState),
      finalesLoop m p i fuel available st = .ok st' →
      ∃ (new : List Tag) (warns : List String) (fin : List Tag),
        st'.selected = st.selected ++ new ∧
        st'.idea =
          { st.idea with
            Finales := st.idea.Finales ++ new,
            Warnings := st.idea.Warnings ++ warns } ∧
        st'.pool = { st.pool with FINALE := fin } ∧
        (∀ x ∈ new, x ∈ available) ∧
        (∀ x ∈ fin, x ∈ st.pool.FINALE ∧ x ∉ new) ∧
        ((∀ x ∈ available, x ∉ st.selected) → st.selected.Nodup →
          (st.selected ++ new).Nodup)
  | 0, i, available, st, st', h => by
    cases h
    exact ⟨[], [], st.pool.FINALE, by simp, by simp, rfl, by simp,
      fun x hx => ⟨hx, by simp⟩, fun _ hn => by simpa using hn⟩
  | fuel + 1, i, available, st, st', h => by
    unfold finalesLoop at h
    simp only [] at h
    split at h
    · split at h
      · exact absurd h (by simp)
      · cases h
        exact ⟨[], [finaleNoTagsMsg i p.num_finales_target], st.pool.FINALE,
          by simp [addWarning], by simp [addWarning], rfl,
          by simp, fun x hx => ⟨hx, by simp⟩, fun _ hn => by simpa using hn⟩
    · split at h
      · cases h
        exact ⟨[], [finaleIncompatMsg i p.num_finales_target p.min_score],
          st.pool.FINALE, by simp [addWarning],
          by simp [addWarning], rfl, by simp, fun x hx => ⟨hx, by simp⟩,
          fun _ hn => by simpa using hn⟩
      · split at h
        · split at h
          · exact absurd h (by simp)
          · split at h
            · exact absurd h (by simp)
            · rename_i c s' hget
              have hcav : c ∈ available :=
                findCompatibleTags_subset (getRandomElement_mem hget)
              obtain ⟨new1, warns1, fin1, hsel, hidea, hpool, hsub, hte, hnd⟩ :=
                finalesLoop_ok m p fuel (i + 1) (available.filter (fun x => x != c)) _ _ h
              refine ⟨c :: new1, warns1, fin1, ?_, ?_, ?_, ?_, ?_, ?_⟩
              · rw [hsel]; simp
              · rw [hidea]; simp
              · rw [hpool]
              · intro x hx
                rcases List.mem_cons.1 hx with rfl | hx
                · exact hcav
                · exact List.mem_of_mem_filter (hsub x hx)
              · intro x hx
                obtain ⟨hx1, hx2⟩ := hte x hx
                simp only [] at hx1
                refine ⟨List.mem_of_mem_filter hx1, ?_⟩
                intro hcon
                rcases List.mem_cons.1 hcon with rfl | hcon
                · have := List.of_mem_filter hx1
                  simp at this
                · exact hx2 hcon
              · intro hav hn
                have hcns : c ∉ st.selected := hav c hcav
                have hstep : (st.selected ++ [c]).Nodup := by
                  simp [List.nodup_append, hn, hcns]
                have hav1 : ∀ x ∈ available.filter (fun x => x != c),
                    x ∉ st.selected ++ [c] := by
                  intro x hx
                  have hxa := List.mem_of_mem_filter hx
                  have hxc := List.of_mem_filter hx
                  simp only [bne_iff_ne, ne_eq] at hxc
                  simp [hav x hxa, hxc]
                have := hnd hav1 hstep
                simpa using this
        · split at h
          · exact absurd h (by simp)
          · split at h
            · exact absurd h (by simp)
            · rename_i c s' hget
              have hcav : c ∈ available :=
                findCompatibleTags_subset (getRandomElement_mem hget)
              obtain ⟨new1, warns1, fin1, hsel, hidea, hpool, hsub, hte, hnd⟩ :=
                finalesLoop_ok m p fuel (i + 1) (available.filter (fun x => x != c)) _ _ h
              refine ⟨c :: new1, warns1, fin1, ?_, ?_, ?_, ?_, ?_, ?_⟩
              · rw [hsel]; simp
              · rw [hidea]; simp
              · rw [hpool]
              · intro x hx
                rcases List.mem_cons.1 hx with rfl | hx
                · exact hcav
                · exact List.mem_of_mem_filter (hsub x hx)
              · intro x hx
                obtain ⟨hx1, hx2⟩ := hte x hx
                simp only [] at hx1
                refine ⟨List.mem_of_mem_filter hx1, ?_⟩
                intro hcon
                rcases List.mem_cons.1 hcon with rfl | hcon
                · have := List.of_mem_filter hx1
                  simp at this
                · exact hx2 hcon
              · intro hav hn
                have hcns : c ∉ st.selected := hav c hcav
                have hstep : (st.selected ++ [c]).Nodup := by
                  simp [List.nodup_append, hn, hcns]
                have hav1 : ∀ x ∈ available.filter (fun x => x != c),
                    x ∉ st.selected ++ [c] := by
                  intro x hx
                  have hxa := List.mem_of_mem_filter hx
                  have hxc := List.of_mem_filter hx
                  simp only [bne_iff_ne, ne_eq] at hxc
                  simp [hav x hxa, hxc]
                have := hnd hav1 hstep
                simpa using this
  termination_by fuel i available st st' h => fuel

theorem supportLoop_ok (m : CompatData) (p : Params) (target : ℤ) :
    ∀ (fuel i : ℕ) (available : List Tag) (st st' : GenState),
      supportLoop m p target i fuel available st = .ok st' →
      ∃ (new : List Tag) (warns : List String) (supp : List Tag),
        st'.selected = st.selected ++ new ∧
        st'.idea =
          { st.idea with
            SupportingChars := st.idea.SupportingChars ++ new,
            Warnings := st.idea.Warnings ++ warns } ∧
        st'.pool = { st.pool with SUPPORTINGCHARACTER := supp } ∧
        (∀ x ∈ new, x ∈ available) ∧
        (∀ x ∈ supp, x ∈ st.pool.SUPPORTINGCHARACTER ∧ x ∉ new) ∧
        ((∀ x ∈ available, x ∉ st.selected) → st.selected.Nodup →
          (st.selected ++ new).Nodup)
  | 0, i, available, st, st', h => by
    cases h
    exact ⟨[], [], st.pool.SUPPORTINGCHARACTER, by simp, by simp, rfl, by simp,
      fun x hx => ⟨hx, by simp⟩, fun _ hn => by simpa using hn⟩
  | fuel + 1, i, available, st, st', h => by
    unfold supportLoop at h
    simp only [] at h
    split at h
    · cases h
      exact ⟨[], [supportNoTagsMsg i target], st.pool.SUPPORTINGCHARACTER,
        by simp [addWarning], by simp [addWarning], rfl,
        by simp, fun x hx => ⟨hx, by simp⟩, fun _ hn => by simpa using hn⟩
    · split at h
      · cases h
        exact ⟨[], [supportIncompatMsg i target], st.pool.SUPPORTINGCHARACTER,
          by simp [addWarning], by simp [addWarning], rfl,
          by simp, fun x hx => ⟨hx, by simp⟩, fun _ hn => by simpa using hn⟩
      · split at h
        · exact absurd h (by simp)
        · rename_i c s' hget
          have hcav : c ∈ available :=
            findCompatibleTags_subset (getRandomElement_mem hget)
          obtain ⟨new1, warns1, fin1, hsel, hidea, hpool, hsub, hte, hnd⟩ :=
            supportLoop_ok m p target fuel (i + 1) (available.filter (fun x => x != c)) _ _ h
          refine ⟨c :: new1, warns1, fin1, ?_, ?_, ?_, ?_, ?_, ?_⟩
          · rw [hsel]; simp
          · rw [hidea]; simp
          · rw [hpool]
          · intro x hx
            rcases List.mem_cons.1 hx with rfl | hx
            · exact hcav
            · exact List.mem_of_mem_filter (hsub x hx)
          · intro x hx
            obtain ⟨hx1, hx2⟩ := hte x hx
            simp only [] at hx1
            refine ⟨List.mem_of_mem_filter hx1, ?_⟩
            intro hcon
            rcases List.mem_cons.1 hcon with rfl | hcon
            · have := List.of_mem_filter hx1
              simp at this
            · exact hx2 hcon
          · intro hav hn
            have hcns : c ∉ st.selected := hav c hcav
            have hstep : (st.selected ++ [c]).Nodup := by
              simp [List.nodup_append, hn, hcns]
            have hav1 : ∀ x ∈ available.filter (fun x => x != c),
                x ∉ st.selected ++ [c] := by
              intro x hx
              have hxa := List.mem_of_mem_filter hx
              have hxc := List.of_mem_filter hx
              simp only [bne_iff_ne, ne_eq] at hxc
              simp [hav x hxa, hxc]
            have := hnd hav1 hstep
            simpa using this
  termination_by fuel i available st st' h => fuel


theorem stepThemes_ok {m : CompatData} {p : Params} {st st' : GenState}
    (h : stepThemes m p st = .ok st') :
    ∃ (new : List Tag) (warns : List String) (th ev te : List Tag),
      st'.selected = st.selected ++ new ∧
      st'.idea =
        { st.idea with
          ThemesEvents := st.idea.ThemesEvents ++ new,
          Warnings := st.idea.Warnings ++ warns } ∧
      st'.pool = { st.pool with THEME := th, EVENT := ev, THEME_and_EVENTS := te } ∧
      (∀ x ∈ new, x ∉ st.selected) ∧
      (∀ x ∈ te, x ∈ st.pool.THEME_and_EVENTS ∧ x ∉ new) ∧
      (st.selected.Nodup → st'.selected.Nodup) := by
  unfold stepThemes at h
  simp only [] at h
  split at h
  · exact absurd h (by simp)
  split at h
  · exact absurd h (by simp)
  obtain ⟨new, warns, th, ev, te, hsel, hidea, hpool, hsub, hte, hnd⟩ :=
    themesLoop_ok m p _ _ _ _ _ h
  have hav : ∀ x ∈ (uniqueList st.pool.THEME_and_EVENTS).filter
      (fun t => !(st.selected.contains t)), x ∉ st.selected := by
    intro x hx
    have := List.of_mem_filter hx
    simpa using this
  refine ⟨new, warns, th, ev, te, hsel, hidea, hpool, ?_, hte, ?_⟩
  · intro x hx
    exact hav x (hsub x hx)
  · intro hn
    rw [hsel]
    exact hnd hav hn

theorem stepFinales_ok {m : CompatData} {p : Params} {st st' : GenState}
    (h : stepFinales m p st = .ok st') :
    ∃ (new : List Tag) (warns : List String) (fin : List Tag),
      st'.selected = st.selected ++ new ∧
      st'.idea =
        { st.idea with
          Finales := st.idea.Finales ++ new,
          Warnings := st.idea.Warnings ++ warns } ∧
      st'.pool = { st.pool with FINALE := fin } ∧
      (∀ x ∈ new, x ∉ st.selected) ∧
      (∀ x ∈ fin, x ∈ st.pool.FINALE ∧ x ∉ new) ∧
      (st.selected.Nodup → st'.selected.Nodup) := by
  unfold stepFinales at h
  simp only [] at h
  split at h
  · exact absurd h (by simp)
  split at h
  · exact absurd h (by simp)
  obtain ⟨new, warns, fin, hsel, hidea, hpool, hsub, hte, hnd⟩ :=
    finalesLoop_ok m p _ _ _ _ _ h
  have hav : ∀ x ∈ st.pool.FINALE.filter (fun t => !(st.selected.contains t)),
      x ∉ st.selected := by
    intro x hx
    have := List.of_mem_filter hx
    simpa using this
  refine ⟨new, warns, fin, hsel, hidea, hpool, ?_, hte, ?_⟩
  · intro x hx
    exact hav x (hsub x hx)
  · intro hn
    rw [hsel]
    exact hnd hav hn

theorem stepSupport_ok {m : CompatData} {p : Params} {st st' : GenState}
    (h : stepSupport m p st = .ok st') :
    ∃ (new : List Tag) (warns : List String) (supp : List Tag),
      st'.selected = st.selected ++ new ∧
      st'.idea =
        { st.idea with
          SupportingChars := st.idea.SupportingChars ++ new,
          Warnings := st.idea.Warnings ++ warns } ∧
      st'.pool = { st.pool with SUPPORTINGCHARACTER := supp } ∧
      (∀ x ∈ new, x ∉ st.selected) ∧
      (∀ x ∈ supp, x ∈ st.pool.SUPPORTINGCHARACTER ∧ x ∉ new) ∧
      (st.selected.Nodup → st'.selected.Nodup) := by
  unfold stepSupport at h
  simp only [] at h
  obtain ⟨new, warns, supp, hsel, hidea, hpool, hsub, hte, hnd⟩ :=
    supportLoop_ok m p _ _ _ _ _ _ h
  have hav : ∀ x ∈ st.pool.SUPPORTINGCHARACTER.filter
      (fun t => !(st.selected.contains t)), x ∉ st.selected := by
    intro x hx
    have := List.of_mem_filter hx
    simpa using this
  refine ⟨new, warns, supp, hsel, hidea, hpool, ?_, hte, ?_⟩
  · intro x hx
    exact hav x (hsub x hx)
  · intro hn
    rw [hsel]
    exact hnd hav hn


end MovieGen
namespace MovieGen

theorem generateMovieIdea_ok_elim {pool : TagPool} {m : CompatData} {p : Params}
    {s : List ℕ} {idea : Idea}
    (h : (generateMovieIdea pool m p s).1 = some idea) :
    ∃ st st', prePipeline m p ⟨pool, emptyIdea, [], s⟩ = .ok st ∧
      stepScore m st = .ok st' ∧ st'.idea = idea ∧
      (generateMovieIdea pool m p s).2.1 = st'.pool := by
  cases hE : (prePipeline m p ⟨pool, emptyIdea, [], s⟩).bind (stepScore m) with
  | ok stF =>
    obtain ⟨stp, hpre, hsc⟩ := except_bind_ok_elim hE
    have h1 : generateMovieIdea pool m p s = (some stF.idea, stF.pool, stF.supply) := by
      unfold generateMovieIdea
      simp only []
      rw [hE]
    rw [h1] at h
    simp only [Option.some.injEq] at h
    exact ⟨stp, stF, hpre, hsc, h, by rw [h1, h]⟩
  | error stF =>
    have h1 : generateMovieIdea pool m p s = (none, stF.pool, stF.supply) := by
      unfold generateMovieIdea
      simp only []
      rw [hE]
    rw [h1] at h
    simp at h

theorem prePipeline_elim {m : CompatData} {p : Params} {st0 stF : GenState}
    (h : prePipeline m p st0 = .ok stF) :
    ∃ st1 st2 st3 st4 st5 st6,
      stepGenres m p st0 = .ok st1 ∧
      stepSetting m p st1 = .ok st2 ∧
      stepProtagonist m p st2 = .ok st3 ∧
      stepThemes m p st3 = .ok st4 ∧
      stepFinales m p st4 = .ok st5 ∧
      stepAntagonist m p st5 = .ok st6 ∧
      stepSupport m p st6 = .ok stF := by
  unfold prePipeline at h
  obtain ⟨st6, h6, hS⟩ := except_bind_ok_elim h
  obtain ⟨st5, h5, hA⟩ := except_bind_ok_elim h6
  obtain ⟨st4, h4, hF⟩ := except_bind_ok_elim h5
  obtain ⟨st3, h3, hT⟩ := except_bind_ok_elim h4
  obtain ⟨st2, h2, hP⟩ := except_bind_ok_elim h3
  obtain ⟨st1, h1, hSe⟩ := except_bind_ok_elim h2
  exact ⟨st1, st2, st3, st4, st5, st6, h1, hSe, hP, hT, hF, hA, hS⟩

end MovieGen
namespace MovieGen

theorem weightsOK_transfer {i i' : Idea} (hg : i'.Genres = i.Genres)
    (hw : i'.GenreWeights = i.GenreWeights) (h : WeightsOK i) : WeightsOK i' := by
  unfold WeightsOK at h ⊢
  rw [hg, hw]
  exact h

theorem weightsOK_of_ok {pool : TagPool} {m : CompatData} {p : Params} {s : List ℕ}
    {idea : Idea} (h : (generateMovieIdea pool m p s).1 = some idea) : WeightsOK idea := by
  obtain ⟨st, st', hpre, hsc, hidea, -⟩ := generateMovieIdea_ok_elim h
  obtain ⟨st1, st2, st3, st4, st5, st6, h1, h2, h3, h4, h5, h6, h7⟩ := prePipeline_elim hpre
  obtain ⟨gs, hsel1, hsub1, hnd1, hrem1, hps1, ⟨ws, hws⟩, e1, e2, e3, e4, e5, e6, hwOK⟩ :=
    stepGenres_ok h1
  have hW1 : WeightsOK st1.idea := hwOK rfl
  obtain ⟨t2, hmem2, hpool2, hi2, hsel2⟩ := stepSetting_ok h2
  have hW2 : WeightsOK st2.idea := weightsOK_transfer (by rw [hi2]) (by rw [hi2]) hW1
  obtain ⟨t3, hmem3, hpool3, hi3, hsel3⟩ := stepProtagonist_ok h3
  have hW3 : WeightsOK st3.idea := weightsOK_transfer (by rw [hi3]) (by rw [hi3]) hW2
  obtain ⟨n4, w4, th4, ev4, te4, hsel4, hi4, hpool4, hsub4, hte4, hnd4⟩ := stepThemes_ok h4
  have hW4 : WeightsOK st4.idea := weightsOK_transfer (by rw [hi4]) (by rw [hi4]) hW3
  obtain ⟨n5, w5, f5, hsel5, hi5, hpool5, hsub5, hte5, hnd5⟩ := stepFinales_ok h5
  have hW5 : WeightsOK st5.idea := weightsOK_transfer (by rw [hi5]) (by rw [hi5]) hW4
  have hW6 : WeightsOK st6.idea := by
    rcases stepAntagonist_ok h6 with ⟨hp6, hs6, w6, hi6⟩ | ⟨t6, hmem6, hn6, hp6, hi6, hs6⟩
    · exact weightsOK_transfer (by rw [hi6]) (by rw [hi6]) hW5
    · exact weightsOK_transfer (by rw [hi6]) (by rw [hi6]) hW5
  obtain ⟨n7, w7, s7, hsel7, hi7, hpool7, hsub7, hte7, hnd7⟩ := stepSupport_ok h7
  have hW7 : WeightsOK st.idea := weightsOK_transfer (by rw [hi7]) (by rw [hi7]) hW6
  obtain ⟨hpoolF, hselF, hiF⟩ := stepScore_ok hsc
  have hWF : WeightsOK st'.idea := weightsOK_transfer (by rw [hiF]) (by rw [hiF]) hW7
  rw [hidea] at hWF
  exact hWF

end MovieGen
namespace MovieGen

theorem removedInv_empty (pool : TagPool) (s : List ℕ) :
    RemovedInv ⟨pool, emptyIdea, [], s⟩ := by
  refine ⟨?_, ?_, ?_, ?_, ?_, ?_⟩ <;> simp [emptyIdea]

theorem removedInv_genres {m : CompatData} {p : Params} {st st' : GenState}
    (h : stepGenres m p st = .ok st') (hI : RemovedInv st) : RemovedInv st' := by
  obtain ⟨gs, hsel, hsub, hnd, hrem, hps, ⟨ws, hws⟩, e1, e2, e3, e4, e5, e6, -⟩ :=
    stepGenres_ok h
  obtain ⟨iG, iP, iT, iF, iA, iS⟩ := hI
  refine ⟨?_, ?_, ?_, ?_, ?_, ?_⟩
  · intro g hg
    have hg' : g ∈ st.idea.Genres ++ gs := by rw [hws] at hg; exact hg
    rcases List.mem_append.1 hg' with hga | hga
    · intro hcon
      exact iG g hga (hps g hcon)
    · exact hrem g hga
  · intro t ht
    have ht' : st.idea.Protagonist = some t := by rw [hws] at ht; exact ht
    rw [e2]
    exact iP t ht'
  · intro t ht
    have ht' : t ∈ st.idea.ThemesEvents := by rw [hws] at ht; exact ht
    rw [e6]
    exact iT t ht'
  · intro t ht
    have ht' : t ∈ st.idea.Finales := by rw [hws] at ht; exact ht
    rw [e5]
    exact iF t ht'
  · intro t ht
    have ht' : st.idea.Antagonist = some t := by rw [hws] at ht; exact ht
    rw [e3]
    exact iA t ht'
  · intro t ht
    have ht' : t ∈ st.idea.SupportingChars := by rw [hws] at ht; exact ht
    rw [e4]
    exact iS t ht'

theorem removedInv_setting {m : CompatData} {p : Params} {st st' : GenState}
    (h : stepSetting m p st = .ok st') (hI : RemovedInv st) : RemovedInv st' := by
  obtain ⟨t, hmem, hpool, hidea, hsel⟩ := stepSetting_ok h
  obtain ⟨iG, iP, iT, iF, iA, iS⟩ := hI
  unfold RemovedInv
  rw [hpool]
  refine ⟨?_, ?_, ?_, ?_, ?_, ?_⟩
  · intro g hg
    exact iG g (by rw [hidea] at hg; exact hg)
  · intro x hx
    exact iP x (by rw [hidea] at hx; exact hx)
  · intro x hx
    exact iT x (by rw [hidea] at hx; exact hx)
  · intro x hx
    exact iF x (by rw [hidea] at hx; exact hx)
  · intro x hx
    exact iA x (by rw [hidea] at hx; exact hx)
  · intro x hx
    exact iS x (by rw [hidea] at hx; exact hx)

theorem removedInv_protagonist {m : CompatData} {p : Params} {st st' : GenState}
    (h : stepProtagonist m p st = .ok st') (hI : RemovedInv st) : RemovedInv st' := by
  obtain ⟨t, hmem, hpool, hidea, hsel⟩ := stepProtagonist_ok h
  obtain ⟨iG, iP, iT, iF, iA, iS⟩ := hI
  unfold RemovedInv
  rw [hpool, hidea]
  refine ⟨fun g hg => iG g hg, ?_, fun x hx => iT x hx, fun x hx => iF x hx,
    fun x hx => iA x hx, fun x hx => iS x hx⟩
  intro x hx
  simp only [Option.some.injEq] at hx
  subst hx
  simp [List.mem_filter]

theorem removedInv_themes {m : CompatData} {p : Params} {st st' : GenState}
    (h : stepThemes m p st = .ok st') (hI : RemovedInv st) : RemovedInv st' := by
  obtain ⟨new, warns, th, ev, te, hsel, hidea, hpool, hsub, hte, hnd⟩ := stepThemes_ok h
  obtain ⟨iG, iP, iT, iF, iA, iS⟩ := hI
  unfold RemovedInv
  rw [hpool, hidea]
  refine ⟨fun g hg => iG g hg, fun x hx => iP x hx, ?_, fun x hx => iF x hx,
    fun x hx => iA x hx, fun x hx => iS x hx⟩
  intro x hx
  intro hcon
  obtain ⟨hc1, hc2⟩ := hte x hcon
  rcases List.mem_append.1 hx with hxa | hxa
  · exact iT x hxa hc1
  · exact hc2 hxa

theorem removedInv_finales {m : CompatData} {p : Params} {st st' : GenState}
    (h : stepFinales m p st = .ok st') (hI : RemovedInv st) : RemovedInv st' := by
  obtain ⟨new, warns, fin, hsel, hidea, hpool, hsub, hte, hnd⟩ := stepFinales_ok h
  obtain ⟨iG, iP, iT, iF, iA, iS⟩ := hI
  unfold RemovedInv
  rw [hpool, hidea]
  refine ⟨fun g hg => iG g hg, fun x hx => iP x hx, fun x hx => iT x hx, ?_,
    fun x hx => iA x hx, fun x hx => iS x hx⟩
  intro x hx
  intro hcon
  obtain ⟨hc1, hc2⟩ := hte x hcon
  rcases List.mem_append.1 hx with hxa | hxa
  · exact iF x hxa hc1
  · exact hc2 hxa

theorem removedInv_antagonist {m : CompatData} {p : Params} {st st' : GenState}
    (h : stepAntagonist m p st = .ok st') (hI : RemovedInv st) : RemovedInv st' := by
  obtain ⟨iG, iP, iT, iF, iA, iS⟩ := hI
  unfold RemovedInv
  rcases stepAntagonist_ok h with ⟨hpool, hselu, w, hidea⟩ | ⟨t, hmem, hns, hpool, hidea, hsel⟩
  · rw [hpool, hidea]
    exact ⟨fun g hg => iG g hg, fun x hx => iP x hx, fun x hx => iT x hx,
      fun x hx => iF x hx, fun x hx => iA x hx, fun x hx => iS x hx⟩
  · rw [hpool, hidea]
    refine ⟨fun g hg => iG g hg, fun x hx => iP x hx, fun x hx => iT x hx,
      fun x hx => iF x hx, ?_, fun x hx => iS x hx⟩
    intro x hx
    simp only [Option.some.injEq] at hx
    subst hx
    simp [List.mem_filter]

theorem removedInv_support {m : CompatData} {p : Params} {st st' : GenState}
    (h : stepSupport m p st = .ok st') (hI : RemovedInv st) : RemovedInv st' := by
  obtain ⟨new, warns, supp, hsel, hidea, hpool, hsub, hte, hnd⟩ := stepSupport_ok h
  obtain ⟨iG, iP, iT, iF, iA, iS⟩ := hI
  unfold RemovedInv
  rw [hpool, hidea]
  refine ⟨fun g hg => iG g hg, fun x hx => iP x hx, fun x hx => iT x hx,
    fun x hx => iF x hx, fun x hx => iA x hx, ?_⟩
  intro x hx
  intro hcon
  obtain ⟨hc1, hc2⟩ := hte x hcon
  rcases List.mem_append.1 hx with hxa | hxa
  · exact iS x hxa hc1
  · exact hc2 hxa

theorem removedInv_score {m : CompatData} {st st' : GenState}
    (h : stepScore m st = .ok st') (hI : RemovedInv st) : RemovedInv st' := by
  obtain ⟨hpool, hsel, hidea⟩ := stepScore_ok h
  obtain ⟨iG, iP, iT, iF, iA, iS⟩ := hI
  unfold RemovedInv
  rw [hpool, hidea]
  exact ⟨fun g hg => iG g hg, fun x hx => iP x hx, fun x hx => iT x hx,
    fun x hx => iF x hx, fun x hx => iA x hx, fun x hx => iS x hx⟩

theorem removedInv_of_ok {pool : TagPool} {m : CompatData} {p : Params} {s : List ℕ}
    {idea : Idea} (h : (generateMovieIdea pool m p s).1 = some idea) :
    (∀ g ∈ idea.Genres, g ∉ (generateMovieIdea pool m p s).2.1.GENRES) ∧
    (∀ t, idea.Protagonist = some t → t ∉ (generateMovieIdea pool m p s).2.1.PROTAGONIST) ∧
    (∀ t ∈ idea.ThemesEvents, t ∉ (generateMovieIdea pool m p s).2.1.THEME_and_EVENTS) ∧
    (∀ t ∈ idea.Finales, t ∉ (generateMovieIdea pool m p s).2.1.FINALE) ∧
    (∀ t, idea.Antagonist = some t → t ∉ (generateMovieIdea pool m p s).2.1.ANTAGONIST) ∧
    (∀ t ∈ idea.SupportingChars, t ∉ (generateMovieIdea pool m p s).2.1.SUPPORTINGCHARACTER) := by
  obtain ⟨st, st', hpre, hsc, hidea, hpoolF⟩ := generateMovieIdea_ok_elim h
  obtain ⟨st1, st2, st3, st4, st5, st6, h1, h2, h3, h4, h5, h6, h7⟩ := prePipeline_elim hpre
  have hInv : RemovedInv st' :=
    removedInv_score hsc (removedInv_support h7 (removedInv_antagonist h6
      (removedInv_finales h5 (removedInv_themes h4 (removedInv_protagonist h3
        (removedInv_setting h2 (removedInv_genres h1 (removedInv_empty pool s))))))))
  rw [hpoolF, ← hidea]
  exact hInv

end MovieGen
namespace MovieGen

theorem nodup_of_ok {pool : TagPool} {m : CompatData} {p : Params} {s : List ℕ}
    {idea : Idea}
    (hSG : ∀ t ∈ pool.SETTING, t ∉ pool.GENRES)
    (hPG : ∀ t ∈ pool.PROTAGONIST, t ∉ pool.GENRES)
    (hPS : ∀ t ∈ pool.PROTAGONIST, t ∉ pool.SETTING)
    (h : (generateMovieIdea pool m p s).1 = some idea) :
    idea.AllTags.Nodup := by
  obtain ⟨st, st', hpre, hsc, hidea, -⟩ := generateMovieIdea_ok_elim h
  obtain ⟨st1, st2, st3, st4, st5, st6, h1, h2, h3, h4, h5, h6, h7⟩ := prePipeline_elim hpre
  obtain ⟨gs, hsel1, hsub1, hnd1, hrem1, hps1, ⟨ws, hws⟩, e1, e2, e3, e4, e5, e6, -⟩ :=
    stepGenres_ok h1
  have hsel1' : st1.selected = gs := by simpa using hsel1
  obtain ⟨t2, hmem2, hpool2, hi2, hsel2⟩ := stepSetting_ok h2
  have ht2S : t2 ∈ pool.SETTING := by rw [e1] at hmem2; exact hmem2
  have hnd2 : st2.selected.Nodup := by
    rw [hsel2, hsel1']
    have ht2 : t2 ∉ gs := fun hcon => hSG t2 ht2S (hsub1 t2 hcon)
    simp [List.nodup_append, hnd1, ht2]
  obtain ⟨t3, hmem3, hpool3, hi3, hsel3⟩ := stepProtagonist_ok h3
  have ht3P : t3 ∈ pool.PROTAGONIST := by rw [hpool2, e2] at hmem3; exact hmem3
  have hnd3 : st3.selected.Nodup := by
    rw [hsel3, hsel2, hsel1']
    have hA : t3 ∉ gs := fun hcon => hPG t3 ht3P (hsub1 t3 hcon)
    have hB : t3 ≠ t2 := fun hcon => hPS t3 ht3P (hcon ▸ ht2S)
    have ht2 : t2 ∉ gs := fun hcon => hSG t2 ht2S (hsub1 t2 hcon)
    simp [List.nodup_append, hnd1, hA, hB, Ne.symm hB, ht2]
  obtain ⟨n4, w4, th4, ev4, te4, hsel4, hi4, hpool4, hsub4, hte4, hnd4⟩ := stepThemes_ok h4
  have hnd4' : st4.selected.Nodup := hnd4 hnd3
  obtain ⟨n5, w5, f5, hsel5, hi5, hpool5, hsub5, hte5, hnd5⟩ := stepFinales_ok h5
  have hnd5' : st5.selected.Nodup := hnd5 hnd4'
  have hnd6 : st6.selected.Nodup := by
    rcases stepAntagonist_ok h6 with ⟨hp6, hs6, w6, hi6⟩ | ⟨t6, hmem6, hn6, hp6, hi6, hs6⟩
    · rw [hs6]
      exact hnd5'
    · rw [hs6]
      simp [List.nodup_append, hnd5', hn6]
  obtain ⟨n7, w7, s7, hsel7, hi7, hpool7, hsub7, hte7, hnd7⟩ := stepSupport_ok h7
  have hnd7' : st.selected.Nodup := hnd7 hnd6
  obtain ⟨hpoolF, hselF, hiF⟩ := stepScore_ok hsc
  have : idea.AllTags = st.selected := by rw [← hidea, hiF]
  rw [this]
  exact hnd7'

end MovieGen
namespace MovieGen

/-! ## The scoring double loop equals the unordered-pair sum -/

theorem foldl_add_map {α : Type} (f : α → ℚ) (l : List α) (init : ℚ) :
    l.foldl (fun acc b => acc + f b) init = init + (l.map f).sum := by
  induction l generalizing init with
  | nil => simp
  | cons a t ih => rw [List.foldl_cons, ih, List.map_cons, List.sum_cons]; ring

theorem map_sum_eq_range_sum (f : Tag → ℚ) (l : List Tag) :
    (l.map f).sum = ∑ j ∈ Finset.range l.length, f (l.getD j "") := by
  induction l with
  | nil => simp
  | cons a t ih =>
    rw [List.map_cons, List.sum_cons, ih, List.length_cons, Finset.sum_range_succ']
    simp [List.getD_cons_succ, List.getD_cons_zero, add_comm]

theorem pairScoreRow_eq (m : CompatData) (w : Tag → ℚ) (a : Tag) (rest : List Tag) :
    pairScoreRow m w a rest =
      ∑ j ∈ Finset.range rest.length,
        (getCompatibilityScore a (rest.getD j "") m * w a +
          getCompatibilityScore (rest.getD j "") a m * w (rest.getD j "")) := by
  rw [pairScoreRow,
    foldl_add_map (fun b => getCompatibilityScore a b m * w a +
      getCompatibilityScore b a m * w b),
    map_sum_eq_range_sum]
  simp

theorem pairScoreSpec_cons (m : CompatData) (w : Tag → ℚ) (a : Tag) (rest : List Tag) :
    pairScoreSpec m w (a :: rest) = pairScoreRow m w a rest + pairScoreSpec m w rest := by
  have inner0 : (∑ j ∈ Finset.range (rest.length + 1),
      if 0 < j then
        getCompatibilityScore ((a :: rest).getD 0 "") ((a :: rest).getD j "") m *
          w ((a :: rest).getD 0 "") +
        getCompatibilityScore ((a :: rest).getD j "") ((a :: rest).getD 0 "") m *
          w ((a :: rest).getD j "")
      else 0) = pairScoreRow m w a rest := by
    rw [Finset.sum_range_succ', pairScoreRow_eq]
    simp [List.getD_cons_succ, List.getD_cons_zero]
  have innerS : ∀ i : ℕ, (∑ j ∈ Finset.range (rest.length + 1),
      if i + 1 < j then
        getCompatibilityScore ((a :: rest).getD (i + 1) "") ((a :: rest).getD j "") m *
          w ((a :: rest).getD (i + 1) "") +
        getCompatibilityScore ((a :: rest).getD j "") ((a :: rest).getD (i + 1) "") m *
          w ((a :: rest).getD j "")
      else 0) =
      ∑ j ∈ Finset.range rest.length,
        (if i < j then
          getCompatibilityScore (rest.getD i "") (rest.getD j "") m * w (rest.getD i "") +
          getCompatibilityScore (rest.getD j "") (rest.getD i "") m * w (rest.getD j "")
        else 0) := by
    intro i
    rw [Finset.sum_range_succ']
    simp [List.getD_cons_succ, Nat.add_lt_add_iff_right]
  unfold pairScoreSpec
  rw [List.length_cons, Finset.sum_range_succ', inner0]
  rw [Finset.sum_congr rfl (fun i _ => innerS i)]
  exact add_comm _ _

theorem pairScoreTotal_eq_spec (m : CompatData) (w : Tag → ℚ) (tags : List Tag) :
    pairScoreTotal m w tags = pairScoreSpec m w tags := by
  induction tags with
  | nil => simp [pairScoreTotal, pairScoreSpec]
  | cons a rest ih => rw [pairScoreTotal, pairScoreSpec_cons, ih]

theorem buildGenreWeightPairs_fst {gs : List Tag} {ws : List ℚ} {e : Tag × ℚ}
    (h : e ∈ buildGenreWeightPairs gs ws) : e.1 ∈ gs := by
  induction gs generalizing ws with
  | nil => cases ws <;> simp [buildGenreWeightPairs] at h
  | cons g gt ih =>
    cases ws with
    | nil =>
      rw [buildGenreWeightPairs] at h
      rcases List.mem_cons.mp h with h | h
      · simp [h]
      · exact List.mem_cons_of_mem _ (ih h)
    | cons w wt =>
      rw [buildGenreWeightPairs] at h
      rcases List.mem_cons.mp h with h | h
      · simp [h]
      · exact List.mem_cons_of_mem _ (ih h)

theorem weightLookup_of_not_mem {gs : List Tag} {ws : List ℚ} {t : Tag} (h : t ∉ gs) :
    weightLookup (buildGenreWeightPairs gs ws) t = 1 := by
  unfold weightLookup
  have hnone : (buildGenreWeightPairs gs ws).reverse.find? (fun e => e.1 == t) = none := by
    rw [List.find?_eq_none]
    intro e he hbeq
    rw [List.mem_reverse] at he
    exact h (beq_iff_eq.mp hbeq ▸ buildGenreWeightPairs_fst he)
  rw [hnone]


/-! ## The appeal accumulation equals the per-segment contribution average -/

theorem segContributions_cons_none {w : AudienceWeights} {t : Tag} (ts : List Tag)
    (seg : Seg) (h : w t = none) :
    segContributions (t :: ts) w seg = segContributions ts w seg := by
  unfold segContributions
  rw [List.filterMap_cons]
  simp [h]

theorem segContributions_cons_some_none {w : AudienceWeights} {t : Tag}
    {tw : Seg → Option ℚ} (ts : List Tag) (seg : Seg) (h : w t = some tw)
    (h2 : tw seg = none) :
    segContributions (t :: ts) w seg = segContributions ts w seg := by
  unfold segContributions
  rw [List.filterMap_cons]
  simp [h, h2]

theorem segContributions_cons_some_some {w : AudienceWeights} {t : Tag}
    {tw : Seg → Option ℚ} {q : ℚ} (ts : List Tag) (seg : Seg) (h : w t = some tw)
    (h2 : tw seg = some q) :
    segContributions (t :: ts) w seg = q :: segContributions ts w seg := by
  unfold segContributions
  rw [List.filterMap_cons]
  simp [h, h2]

theorem appealTotals_foldl (w : AudienceWeights) (tags : List Tag)
    (acc : List (Seg × ℚ × ℕ)) :
    tags.foldl
      (fun acc tagId =>
        match w tagId with
        | none => acc
        | some tagWeights =>
          acc.map fun e =>
            match tagWeights e.1 with
            | none => e
            | some score => (e.1, e.2.1 + score, e.2.2 + 1)) acc =
      acc.map (fun e =>
        (e.1, e.2.1 + (segContributions tags w e.1).sum,
          e.2.2 + (segContributions tags w e.1).length)) := by
  induction tags generalizing acc with
  | nil => simp [segContributions]
  | cons t ts ih =>
    rw [List.foldl_cons]
    cases hwt : w t with
    | none =>
      simp only [hwt]
      rw [ih]
      apply List.map_congr_left
      intro e he
      rw [segContributions_cons_none ts e.1 hwt]
    | some tw =>
      simp only [hwt]
      rw [ih, List.map_map]
      apply List.map_congr_left
      intro e he
      simp only [Function.comp_apply]
      cases hts : tw e.1 with
      | none =>
        simp only [hts]
        rw [segContributions_cons_some_none ts e.1 hwt hts]
      | some q =>
        simp only [hts]
        rw [segContributions_cons_some_some ts e.1 hwt hts]
        simp only [List.sum_cons, List.length_cons]
        refine congrArg (fun x => (e.1, x)) ?_
        refine Prod.ext ?_ ?_
        · simp only []
          ring
        · simp only []
          omega

theorem appealTotals_eq (tags : List Tag) (w : AudienceWeights)
    (groups : List (Seg × AudienceGroup)) :
    appealTotals tags w groups =
      groups.map (fun g =>
        (g.1, (segContributions tags w g.1).sum,
          (segContributions tags w g.1).length)) := by
  unfold appealTotals
  rw [appealTotals_foldl, List.map_map, List.map_map]
  apply List.map_congr_left
  intro g hg
  simp

theorem appeal_eq_spec (tags : List Tag) (w : AudienceWeights)
    (groups : List (Seg × AudienceGroup)) :
    calculateAverageAudienceAppeal tags w groups =
      groups.map (fun g => (g.1, audienceAppealSpec tags w g.1)) := by
  unfold calculateAverageAudienceAppeal
  by_cases hg : groups.isEmpty
  · rw [if_pos hg]
    have hge : groups = [] := List.isEmpty_iff.mp hg
    simp [hge]
  · rw [if_neg hg]
    by_cases ht : tags.isEmpty
    · rw [if_pos ht]
      have hte : tags = [] := List.isEmpty_iff.mp ht
      subst hte
      rw [List.map_map]
      apply List.map_congr_left
      intro g hg2
      simp [audienceAppealSpec, segContributions]
    · rw [if_neg ht, appealTotals_eq, List.map_map]
      apply List.map_congr_left
      intro g hg2
      simp only [Function.comp_apply]
      unfold audienceAppealSpec
      by_cases hc : (segContributions tags w g.1).isEmpty
      · have hce : segContributions tags w g.1 = [] := List.isEmpty_iff.mp hc
        simp [hce]
      · have hlen : 0 < (segContributions tags w g.1).length := by
          cases hcc : segContributions tags w g.1 with
          | nil => rw [hcc] at hc; simp at hc
          | cons a l => simp
        simp [hc, hlen]

theorem appeal_length (tags : List Tag) (w : AudienceWeights)
    (groups : List (Seg × AudienceGroup)) :
    (calculateAverageAudienceAppeal tags w groups).length = groups.length := by
  rw [appeal_eq_spec, List.length_map]

/-! ## Sorting facts for the advertiser ranking -/

theorem sortByScoreDesc_sorted (l : List (String × ℚ)) :
    (sortByScoreDesc l).Sorted (fun a b => b.2 ≤ a.2) :=
  List.sorted_insertionSort _ l

theorem sortByScoreDesc_length (l : List (String × ℚ)) :
    (sortByScoreDesc l).length = l.length :=
  (List.perm_insertionSort _ l).length_eq


/-! ## Claim theorems -/

/-- C1: every pick follows the two-tier threshold policy.  A mandatory pick
filters candidates at `min_score` and retries once at the fallback threshold
`max 0 (min_score - 1)` computed from the run parameters, aborting the whole
run with no partial idea when even the fallback pass is empty; an optional or
subsequent pick filters at `min_score` only and records exactly one warning
without aborting.  Shown structurally for the two-tier filter itself, and on
four scenarios: the fallback scenario succeeds via the fallback pass, the
no-setting scenario aborts returning no idea, the under-filled support
scenario (`num_support_target = 2`, one compatible character) returns an idea
with one supporting character and one warning, and the weak-second-theme
scenario warns even though the fallback threshold would have accepted the
second theme (no fallback for subsequent picks). -/
theorem C1_two_tier_policy (s : List ℕ) :
    (∀ cands sel m p, twoTierCands cands sel m p =
      (if (findCompatibleTags cands sel m p.min_score).isEmpty then
        findCompatibleTags cands sel m (fallbackScoreOf p.min_score)
      else findCompatibleTags cands sel m p.min_score)) ∧
    (∀ q : ℚ, fallbackScoreOf q = max 0 (q - 1)) ∧
    (generateMovieIdea poolA mFallback pA s).1 = some ideaA1 ∧
    (generateMovieIdea poolA mNoSetting pA s).1 = none ∧
    ((generateMovieIdea poolB mNoD pB s).1 = some ideaB ∧
      pB.num_support_target = 2 ∧ ideaB.SupportingChars = ["C"] ∧
      ideaB.Warnings = [supportIncompatMsg 1 2]) ∧
    ((generateMovieIdea poolE mWeakU pE s).1 = some ideaE ∧
      pE.num_themes_target = 2 ∧ ideaE.ThemesEvents = ["T"] ∧
      ideaE.Warnings = [themeIncompatMsg 1 2 2] ∧
      findCompatibleTags ["U"] ["G", "S", "P", "T"] mWeakU
        (fallbackScoreOf pE.min_score) = ["U"]) := by
  refine ⟨fun cands sel m p => rfl, fun q => rfl, ?_, ?_, ⟨?_, rfl, rfl, rfl⟩,
    ⟨?_, rfl, rfl, rfl, ?_⟩⟩
  · rw [runFallback_eval]
  · rw [runNoSetting_eval]
  · rw [runSupport_eval]
  · rw [runThemes_eval]
  · have hfb : fallbackScoreOf pE.min_score = 1 := by
      norm_num [fallbackScoreOf, pE, pA]
    rw [hfb]
    decide

/-- C2: `isCompatibleWithAll` is vacuously true on an empty `existing` list,
and otherwise holds iff for every existing tag the larger of the two
directional scores reaches the threshold, a missing matrix entry scoring `0`;
the direction holding the high score does not matter, and
`findCompatibleTags` filters the candidates in input order. -/
theorem C2_compatibility (cand : Tag) (existing cands : List Tag) (m : CompatData)
    (thr : ℚ) :
    isCompatibleWithAll cand [] m thr = true ∧
    (isCompatibleWithAll cand existing m thr = true ↔
      ∀ e ∈ existing,
        thr ≤ max (getCompatibilityScore cand e m) (getCompatibilityScore e cand m)) ∧
    (∀ a b, m a b = none → getCompatibilityScore a b m = 0) ∧
    (isCompatibleWithAll "A" ["B"] mAsym 3 = true ∧
      isCompatibleWithAll "B" ["A"] mAsym 3 = true) ∧
    findCompatibleTags cands existing m thr =
      cands.filter (fun t => isCompatibleWithAll t existing m thr) ∧
    (findCompatibleTags cands existing m thr).Sublist cands := by
  have hfilter : findCompatibleTags cands existing m thr =
      cands.filter (fun t => isCompatibleWithAll t existing m thr) := by
    unfold findCompatibleTags
    cases cands with
    | nil => simp
    | cons c cs => simp
  refine ⟨rfl, ?_, ?_, ⟨by decide, by decide⟩, hfilter, ?_⟩
  · simp [isCompatibleWithAll, le_max_iff]
  · intro a b hab
    simp [getCompatibilityScore, hab]
  · rw [hfilter]
    exact List.filter_sublist _

/-- C3: on every successful run the stored `TotalScore` is the sum over all
unordered pairs `(i < j)` of the selected tag list of
`score(i→j)·weight(i) + score(j→i)·weight(j)` rounded to one decimal place,
where the weight of a selected genre is its genre weight and the weight of
every non-genre tag is `1`. -/
theorem C3_scoring_stage {pool : TagPool} {m : CompatData} {p : Params} {s : List ℕ}
    {idea : Idea} (h : (generateMovieIdea pool m p s).1 = some idea) :
    idea.TotalScore =
      round1 (pairScoreSpec m
        (weightLookup (buildGenreWeightPairs idea.Genres idea.GenreWeights))
        idea.AllTags) ∧
    (∀ t, t ∉ idea.Genres →
      weightLookup (buildGenreWeightPairs idea.Genres idea.GenreWeights) t = 1) := by
  obtain ⟨st, st', hpre, hsc, hidea, -⟩ := generateMovieIdea_ok_elim h
  obtain ⟨hpool, hsel, hi⟩ := stepScore_ok hsc
  have hg : idea.Genres = st.idea.Genres := by rw [← hidea, hi]
  have hw : idea.GenreWeights = st.idea.GenreWeights := by rw [← hidea, hi]
  have hAll : idea.AllTags = st.selected := by rw [← hidea, hi]
  have hts : idea.TotalScore = round1 (pairScoreTotal m
      (weightLookup (buildGenreWeightPairs st.idea.Genres st.idea.GenreWeights))
      st.selected) := by rw [← hidea, hi]
  constructor
  · rw [hts, hg, hw, hAll, pairScoreTotal_eq_spec]
  · intro t ht
    exact weightLookup_of_not_mem ht

/-- Witness for C3 at the fallback scenario. -/
theorem C3_scoring_stage_witness :
    (generateMovieIdea poolA mFallback pA []).1 = some ideaA1 ∧
    ideaA1.TotalScore =
      round1 (pairScoreSpec mFallback
        (weightLookup (buildGenreWeightPairs ideaA1.Genres ideaA1.GenreWeights))
        ideaA1.AllTags) := by
  have h : (generateMovieIdea poolA mFallback pA []).1 = some ideaA1 := by
    rw [runFallback_eval]
  exact ⟨h, (C3_scoring_stage h).1⟩

/-- C5: on every successful run the genre weights come from the fixed lookup
table keyed by the number of genres, have the same length as the genre list,
and sum to `1`. -/
theorem C5_genre_weights {pool : TagPool} {m : CompatData} {p : Params} {s : List ℕ}
    {idea : Idea} (h : (generateMovieIdea pool m p s).1 = some idea) :
    idea.GenreWeights.length = idea.Genres.length ∧
    idea.GenreWeights.sum = 1 ∧
    (idea.Genres.length = 1 → idea.GenreWeights = [1]) ∧
    (idea.Genres.length = 2 →
      idea.GenreWeights ∈ [[(0.5 : ℚ), 0.5], [0.65, 0.35], [0.8, 0.2]]) ∧
    (idea.Genres.length = 3 →
      idea.GenreWeights ∈ [[(0.4 : ℚ), 0.3, 0.3], [0.6, 0.2, 0.2]]) := by
  have hW := weightsOK_of_ok h
  unfold WeightsOK at hW
  rcases hW with ⟨h1, h2⟩ | ⟨h1, h2⟩ | ⟨h1, h2⟩
  · rw [h1, h2]
    exact ⟨rfl, by norm_num, fun _ => rfl, fun hc => by omega, fun hc => by omega⟩
  · simp only [List.mem_cons, List.not_mem_nil, or_false] at h2
    rw [h1]
    rcases h2 with h2 | h2 | h2 <;> rw [h2] <;>
      exact ⟨rfl, by norm_num, fun hc => by omega, fun _ => by simp,
        fun hc => by omega⟩
  · simp only [List.mem_cons, List.not_mem_nil, or_false] at h2
    rw [h1]
    rcases h2 with h2 | h2 <;> rw [h2] <;>
      exact ⟨rfl, by norm_num, fun hc => by omega, fun hc => by omega,
        fun _ => by simp⟩

/-- Witness for C5 at the fallback scenario. -/
theorem C5_genre_weights_witness :
    (generateMovieIdea poolA mFallback pA []).1 = some ideaA1 ∧
    ideaA1.GenreWeights.length = ideaA1.Genres.length ∧
    ideaA1.GenreWeights.sum = 1 := by
  have h : (generateMovieIdea poolA mFallback pA []).1 = some ideaA1 := by
    rw [runFallback_eval]
  exact ⟨h, (C5_genre_weights h).1, (C5_genre_weights h).2.1⟩


/-- C4: the retry controller copies the pool successfully (a deep copy of a
plain pool always succeeds and leaves the original untouched), aborts
returning the last produced idea when copying fails, and otherwise performs
up to `3` attempts, each on the original (uncorrupted) pool with the random
supply threaded through, returning the first attempt whose score reaches
`44.0` and the third attempt's result (idea or `none`) when none does. -/
theorem C4_retry_controller (pool : TagPool) (m : CompatData) (p : Params)
    (s : List ℕ) :
    deepCopyPool pool = some pool ∧
    (∀ (fuel : ℕ) (last : Option Idea) (s' : List ℕ),
      retryLoop (fun _ => none) m p pool (fuel + 1) last s' = last) ∧
    MAX_GENERATION_ATTEMPTS = 3 ∧
    generateMovieIdeaWithRetry pool m p s =
      (if meetsScore (generateMovieIdea pool m p s).1 then
        (generateMovieIdea pool m p s).1
      else if meetsScore
          (generateMovieIdea pool m p (generateMovieIdea pool m p s).2.2).1 then
        (generateMovieIdea pool m p (generateMovieIdea pool m p s).2.2).1
      else
        (generateMovieIdea pool m p
          (generateMovieIdea pool m p
            (generateMovieIdea pool m p s).2.2).2.2).1) := by
  refine ⟨rfl, fun fuel last s' => rfl, rfl, ?_⟩
  have hstep : ∀ (fuel : ℕ) (last : Option Idea) (s' : List ℕ),
      retryLoop deepCopyPool m p pool (fuel + 1) last s' =
        match (generateMovieIdea pool m p s').1 with
        | some i =>
          if MIN_REQUIRED_SCORE ≤ i.TotalScore then some i
          else retryLoop deepCopyPool m p pool fuel (some i)
            (generateMovieIdea pool m p s').2.2
        | none =>
          retryLoop deepCopyPool m p pool fuel none
            (generateMovieIdea pool m p s').2.2 := by
    intro fuel last s'
    rfl
  rw [generateMovieIdeaWithRetry]
  rw [show MAX_GENERATION_ATTEMPTS = 2 + 1 from rfl, hstep]
  cases h1 : (generateMovieIdea pool m p s).1 with
  | some i1 =>
    simp only [meetsScore, h1]
    by_cases hq1 : MIN_REQUIRED_SCORE ≤ i1.TotalScore
    · simp [hq1]
    · simp only [hq1, if_false, decide_eq_true_eq, if_neg hq1]
      rw [show (2 : ℕ) = 1 + 1 from rfl, hstep]
      cases h2 : (generateMovieIdea pool m p (generateMovieIdea pool m p s).2.2).1 with
      | some i2 =>
        simp only [meetsScore, h2]
        by_cases hq2 : MIN_REQUIRED_SCORE ≤ i2.TotalScore
        · simp [hq2]
        · simp only [hq2, decide_eq_true_eq, if_neg hq2, decide_False, if_false]
          rw [show (1 : ℕ) = 0 + 1 from rfl, hstep]
          cases h3 : (generateMovieIdea pool m p
              (generateMovieIdea pool m p
                (generateMovieIdea pool m p s).2.2).2.2).1 with
          | some i3 =>
            by_cases hq3 : MIN_REQUIRED_SCORE ≤ i3.TotalScore
            · simp [hq3, retryLoop]
            · simp [hq3, retryLoop]
          | none => simp [retryLoop]
      | none =>
        simp only [meetsScore]
        rw [show (1 : ℕ) = 0 + 1 from rfl, hstep]
        cases h3 : (generateMovieIdea pool m p
            (generateMovieIdea pool m p
              (generateMovieIdea pool m p s).2.2).2.2).1 with
        | some i3 =>
          by_cases hq3 : MIN_REQUIRED_SCORE ≤ i3.TotalScore
          · simp [hq3, retryLoop]
          · simp [hq3, retryLoop]
        | none => simp [retryLoop]
  | none =>
    simp only [meetsScore, Bool.false_eq_true, if_false]
    rw [show (2 : ℕ) = 1 + 1 from rfl, hstep]
    cases h2 : (generateMovieIdea pool m p (generateMovieIdea pool m p s).2.2).1 with
    | some i2 =>
      simp only [meetsScore, h2]
      by_cases hq2 : MIN_REQUIRED_SCORE ≤ i2.TotalScore
      · simp [hq2]
      · simp only [hq2, decide_eq_true_eq, if_neg hq2, decide_False, if_false]
        rw [show (1 : ℕ) = 0 + 1 from rfl, hstep]
        cases h3 : (generateMovieIdea pool m p
            (generateMovieIdea pool m p
              (generateMovieIdea pool m p s).2.2).2.2).1 with
        | some i3 =>
          by_cases hq3 : MIN_REQUIRED_SCORE ≤ i3.TotalScore
          · simp [hq3, retryLoop]
          · simp [hq3, retryLoop]
        | none => simp [retryLoop]
    | none =>
      simp only [meetsScore]
      rw [show (1 : ℕ) = 0 + 1 from rfl, hstep]
      cases h3 : (generateMovieIdea pool m p
          (generateMovieIdea pool m p
            (generateMovieIdea pool m p s).2.2).2.2).1 with
      | some i3 =>
        by_cases hq3 : MIN_REQUIRED_SCORE ≤ i3.TotalScore
        · simp [hq3, retryLoop]
        · simp [hq3, retryLoop]
      | none => simp [retryLoop]

/-- C6: `calculateAverageAudienceAppeal` returns, for every listed segment in
order, the sum of the parseable weights the tags define for that segment
divided by the number of contributing tags, `0` when none contributes; the
empty tag list yields all-zero scores, and in the two-tag example where only
`"T1"` weighs `4` for `"S"` the appeal of `"S"` is `4`. -/
theorem C6_appeal_average (tags : List Tag) (w : AudienceWeights)
    (groups : List (Seg × AudienceGroup)) :
    calculateAverageAudienceAppeal tags w groups =
      groups.map (fun g => (g.1, audienceAppealSpec tags w g.1)) ∧
    calculateAverageAudienceAppeal [] w groups =
      groups.map (fun g => (g.1, (0 : ℚ))) ∧
    calculateAverageAudienceAppeal ["T1", "T2"] awExample agExample = [("S", 4)] := by
  refine ⟨appeal_eq_spec tags w groups, ?_, ?_⟩
  · rw [appeal_eq_spec]
    apply List.map_congr_left
    intro g hg
    simp [audienceAppealSpec, segContributions]
  · rw [appeal_eq_spec]
    simp only [agExample, List.map_cons, List.map_nil]
    have h1 : segContributions ["T1", "T2"] awExample "S" = [4] := by
      unfold segContributions awExample
      simp
    simp [audienceAppealSpec, h1]

/-- C7 (amended): when the interested-audience list is non-empty the
advertisers are ranked descending by match score; the returned advertisers
are exactly the good ones (score at or above `13.0`) when some advertiser is
good, else the top `min 3 (roster size)` of the ranking with the fallback
flag set, every returned score rounded to one decimal place.  When no
segment has positive appeal the function instead returns no advertisers at
all (see the counterexample). -/
theorem C7_advertiser_matches (appeal : List (Seg × ℚ)) (ads : List Advertiser)
    (h : ((computeInterestedAudiences appeal).1).isEmpty = false) :
    (sortByScoreDesc
      (ads.map (evalAdvertiser (computeInterestedAudiences appeal).1 appeal))).Sorted
        (fun a b => b.2 ≤ a.2) ∧
    (calculateAdvertiserMatches appeal ads).topAdvertisers =
      (if ((sortByScoreDesc
            (ads.map (evalAdvertiser (computeInterestedAudiences appeal).1
              appeal))).filter
          (fun ad => decide (ADVERTISER_MATCH_SCORE_THRESHOLD ≤ ad.2))).isEmpty then
        ((sortByScoreDesc
          (ads.map (evalAdvertiser (computeInterestedAudiences appeal).1
            appeal))).take ADVERTISER_MATCH_FALLBACK_COUNT).map
          (fun ad => (ad.1, round1 ad.2))
      else
        ((sortByScoreDesc
          (ads.map (evalAdvertiser (computeInterestedAudiences appeal).1
            appeal))).filter
          (fun ad => decide (ADVERTISER_MATCH_SCORE_THRESHOLD ≤ ad.2))).map
          (fun ad => (ad.1, round1 ad.2))) ∧
    (calculateAdvertiserMatches appeal ads).usedAdvertiserFallback =
      ((sortByScoreDesc
        (ads.map (evalAdvertiser (computeInterestedAudiences appeal).1
          appeal))).filter
        (fun ad => decide (ADVERTISER_MATCH_SCORE_THRESHOLD ≤ ad.2))).isEmpty ∧
    (((sortByScoreDesc
        (ads.map (evalAdvertiser (computeInterestedAudiences appeal).1
          appeal))).filter
        (fun ad => decide (ADVERTISER_MATCH_SCORE_THRESHOLD ≤ ad.2))).isEmpty = true →
      (calculateAdvertiserMatches appeal ads).topAdvertisers.length =
        min ADVERTISER_MATCH_FALLBACK_COUNT ads.length) := by
  have hmatches : calculateAdvertiserMatches appeal ads =
      { interestedAudiences := (computeInterestedAudiences appeal).1,
        topAdvertisers :=
          (if ((sortByScoreDesc
                (ads.map (evalAdvertiser (computeInterestedAudiences appeal).1
                  appeal))).filter
              (fun ad =>
                decide (ADVERTISER_MATCH_SCORE_THRESHOLD ≤ ad.2))).isEmpty then
            ((sortByScoreDesc
              (ads.map (evalAdvertiser (computeInterestedAudiences appeal).1
                appeal))).take ADVERTISER_MATCH_FALLBACK_COUNT).map
              (fun ad => (ad.1, round1 ad.2))
          else
            ((sortByScoreDesc
              (ads.map (evalAdvertiser (computeInterestedAudiences appeal).1
                appeal))).filter
              (fun ad => decide (ADVERTISER_MATCH_SCORE_THRESHOLD ≤ ad.2))).map
              (fun ad => (ad.1, round1 ad.2))),
        usedAudienceFallback := (computeInterestedAudiences appeal).2,
        usedAdvertiserFallback :=
          ((sortByScoreDesc
            (ads.map (evalAdvertiser (computeInterestedAudiences appeal).1
              appeal))).filter
            (fun ad =>
              decide (ADVERTISER_MATCH_SCORE_THRESHOLD ≤ ad.2))).isEmpty } := by
    unfold calculateAdvertiserMatches
    simp only [h, Bool.false_eq_true, if_false]
    cases hx : ((sortByScoreDesc
        (ads.map (evalAdvertiser (computeInterestedAudiences appeal).1
          appeal))).filter
        (fun ad => decide (ADVERTISER_MATCH_SCORE_THRESHOLD ≤ ad.2))).isEmpty with
    | true => simp only [hx, Bool.not_true, Bool.false_eq_true, if_false, if_true]
    | false => simp only [hx, Bool.not_false, Bool.false_eq_true, if_false, if_true]
  refine ⟨sortByScoreDesc_sorted _, ?_, ?_, ?_⟩
  · rw [hmatches]
  · rw [hmatches]
  · intro hgood
    rw [hmatches]
    simp only [hgood, if_true, List.length_map, List.length_take,
      sortByScoreDesc_length, List.length_map]

/-- Witness for C7: one segment of appeal `3` is interested, and the single
advertiser of score `15` is a good match. -/
theorem C7_advertiser_matches_witness :
    ((computeInterestedAudiences [(("S" : Seg), (3 : ℚ))]).1).isEmpty = false ∧
    (calculateAdvertiserMatches [(("S" : Seg), (3 : ℚ))] [adBig]).usedAdvertiserFallback =
      ((sortByScoreDesc
        ([adBig].map (evalAdvertiser
          (computeInterestedAudiences [(("S" : Seg), (3 : ℚ))]).1
          [(("S" : Seg), (3 : ℚ))]))).filter
        (fun ad => decide (ADVERTISER_MATCH_SCORE_THRESHOLD ≤ ad.2))).isEmpty := by
  have h : ((computeInterestedAudiences [(("S" : Seg), (3 : ℚ))]).1).isEmpty = false := by
    norm_num [computeInterestedAudiences, INTERESTED_AUDIENCE_THRESHOLD]
  exact ⟨h, (C7_advertiser_matches [("S", 3)] [adBig] h).2.2.1⟩

/-- Counterexample for C7: with no positively-appealing segment the function
returns an empty `topAdvertisers` although the only advertiser's match score
`15` is above the `13.0` threshold and `min 3 1 = 1 ≠ 0`. -/
theorem C7_counterexample :
    calculateAdvertiserMatches [(("S" : Seg), (0 : ℚ))] [adBig] =
      { interestedAudiences := [], topAdvertisers := [],
        usedAudienceFallback := true, usedAdvertiserFallback := false } ∧
    (evalAdvertiser [] [(("S" : Seg), (0 : ℚ))] adBig).2 = 15 ∧
    ADVERTISER_MATCH_SCORE_THRESHOLD ≤ (15 : ℚ) ∧
    min ADVERTISER_MATCH_FALLBACK_COUNT [adBig].length = 1 := by
  refine ⟨?_, ?_, ?_, rfl⟩
  · have hia : computeInterestedAudiences [(("S" : Seg), (0 : ℚ))] = ([], true) := by
      norm_num [computeInterestedAudiences, INTERESTED_AUDIENCE_THRESHOLD,
        INTERESTED_AUDIENCE_FALLBACK_COUNT, List.insertionSort]
    unfold calculateAdvertiserMatches
    rw [hia]
    rfl
  · norm_num [evalAdvertiser, advertiserName, adBig, ADVERTISER_MATCH_NO_OVERLAP_PENALTY]
  · norm_num [ADVERTISER_MATCH_SCORE_THRESHOLD]


/-- C8 (amended): on every successful run the chosen genres, protagonist,
themes/events, finales, antagonist and supporting characters are removed from
their category's list in the working pool, but the chosen setting is *not*
removed from `SETTING` (see the counterexample). -/
theorem C8_pool_removal {pool : TagPool} {m : CompatData} {p : Params} {s : List ℕ}
    {idea : Idea} (h : (generateMovieIdea pool m p s).1 = some idea) :
    (∀ g ∈ idea.Genres, g ∉ (generateMovieIdea pool m p s).2.1.GENRES) ∧
    (∀ t, idea.Protagonist = some t →
      t ∉ (generateMovieIdea pool m p s).2.1.PROTAGONIST) ∧
    (∀ t ∈ idea.ThemesEvents, t ∉ (generateMovieIdea pool m p s).2.1.THEME_and_EVENTS) ∧
    (∀ t ∈ idea.Finales, t ∉ (generateMovieIdea pool m p s).2.1.FINALE) ∧
    (∀ t, idea.Antagonist = some t →
      t ∉ (generateMovieIdea pool m p s).2.1.ANTAGONIST) ∧
    (∀ t ∈ idea.SupportingChars,
      t ∉ (generateMovieIdea pool m p s).2.1.SUPPORTINGCHARACTER) :=
  removedInv_of_ok h

/-- Witness for C8 at the fallback scenario. -/
theorem C8_pool_removal_witness :
    (generateMovieIdea poolA mFallback pA []).1 = some ideaA1 ∧
    (∀ g ∈ ideaA1.Genres, g ∉ (generateMovieIdea poolA mFallback pA []).2.1.GENRES) := by
  have h : (generateMovieIdea poolA mFallback pA []).1 = some ideaA1 := by
    rw [runFallback_eval]
  exact ⟨h, (C8_pool_removal h).1⟩

/-- Counterexample for C8: the chosen setting stays in the working pool's
`SETTING` list after a successful run. -/
theorem C8_counterexample :
    (generateMovieIdea poolA mFallback pA []).1 = some ideaA1 ∧
    ideaA1.Setting = some "S" ∧
    "S" ∈ (generateMovieIdea poolA mFallback pA []).2.1.SETTING := by
  rw [runFallback_eval]
  exact ⟨rfl, rfl, by decide⟩

/-- C9 (amended): when the input pool's `SETTING` and `PROTAGONIST` lists
share no tag with `GENRES` nor with each other, every successfully returned
idea's `AllTags` list has no duplicate.  Without that disjointness the
setting and protagonist stages can re-select an already selected tag, since
their candidate lists are not filtered against the selected tags (see the
counterexample). -/
theorem C9_all_tags_distinct {pool : TagPool} {m : CompatData} {p : Params}
    {s : List ℕ} {idea : Idea}
    (hSG : ∀ t ∈ pool.SETTING, t ∉ pool.GENRES)
    (hPG : ∀ t ∈ pool.PROTAGONIST, t ∉ pool.GENRES)
    (hPS : ∀ t ∈ pool.PROTAGONIST, t ∉ pool.SETTING)
    (h : (generateMovieIdea pool m p s).1 = some idea) :
    idea.AllTags.Nodup :=
  nodup_of_ok hSG hPG hPS h

/-- Witness for C9 at the fallback scenario (its pool categories are
pairwise disjoint). -/
theorem C9_all_tags_distinct_witness :
    (generateMovieIdea poolA mFallback pA []).1 = some ideaA1 ∧
    ideaA1.AllTags.Nodup := by
  have h : (generateMovieIdea poolA mFallback pA []).1 = some ideaA1 := by
    rw [runFallback_eval]
  exact ⟨h, C9_all_tags_distinct (by decide) (by decide) (by decide) h⟩

/-- Counterexample for C9: with the tag `"X"` in both `GENRES` and `SETTING`
the run succeeds and returns `AllTags = ["X", "X", "P", "T", "F"]`, a
duplicate. -/
theorem C9_counterexample :
    (generateMovieIdea poolDup mDup pA []).1 = some ideaDup ∧
    ¬ ideaDup.AllTags.Nodup := by
  rw [runDup_eval]
  exact ⟨rfl, by decide⟩

/-- C10: when validation passes, at least one tag is selected and every
segment's average appeal is `0`, `runCalculations` short-circuits with
artistic and commercial scores of `1`, empty audience and advertiser lists,
both fallback flags `false` and the error string
"Selected tags have no measurable appeal.". -/
theorem C10_zero_appeal_shortcut (cats : List (String × List Tag))
    (w : AudienceWeights) (groups : List (Seg × AudienceGroup))
    (ads : List Advertiser)
    (hv : (validateSelectedTags cats).isValid = true)
    (ht : ((cats.map (·.2)).flatten).isEmpty = false)
    (hz : ∀ e ∈ calculateAverageAudienceAppeal ((cats.map (·.2)).flatten) w groups,
      e.2 = 0) :
    runCalculations cats w groups ads =
      { validation := validateSelectedTags cats,
        results := some
          { artisticScore := some 1, commercialScore := some 1,
            interestedAudiences := some [], topAdvertisers := some [],
            usedAudienceFallback := false, usedAdvertiserFallback := false,
            error := some "Selected tags have no measurable appeal." } } := by
  unfold runCalculations
  simp only [hv, Bool.true_eq_false, if_false]
  have hbranch1 : ¬((calculateAverageAudienceAppeal ((cats.map (·.2)).flatten) w
      groups).isEmpty ∧ ¬groups.isEmpty) := by
    rintro ⟨he, hne⟩
    rw [List.isEmpty_iff_length_eq_zero, appeal_length] at he
    rw [← List.isEmpty_iff_length_eq_zero] at he
    exact hne he
  rw [if_neg hbranch1]
  have hall : ((calculateAverageAudienceAppeal ((cats.map (·.2)).flatten) w
      groups).all fun e => decide (e.2 = 0)) = true := by
    rw [List.all_eq_true]
    intro e he
    exact decide_eq_true (hz e he)
  have hne : ¬((cats.map (·.2)).flatten).isEmpty := by
    rw [ht]
    exact Bool.false_ne_true
  rw [if_pos ⟨hall, hne⟩]

/-- Witness for C10: one genre, setting and protagonist selected, a one-segment
group table, and no tag contributing any weight. -/
theorem C10_zero_appeal_shortcut_witness :
    (validateSelectedTags catsZero).isValid = true ∧
    runCalculations catsZero awNone agExample [] =
      { validation := validateSelectedTags catsZero,
        results := some
          { artisticScore := some 1, commercialScore := some 1,
            interestedAudiences := some [], topAdvertisers := some [],
            usedAudienceFallback := false, usedAdvertiserFallback := false,
            error := some "Selected tags have no measurable appeal." } } :=
  ⟨by decide, C10_zero_appeal_shortcut catsZero awNone agExample [] (by decide)
    (by decide) (by decide)⟩

end MovieGen
